import Mathlib

/-!
Shallow embedding of the Oddest1Out client game core.

The definitions below are translated from the repository source:
  * `src/components/Game.tsx` — game state machine: `handleCardClick`,
    `runCheckSequence`, `handleStandoutGuess`, `runWinSequence`,
    `runLossSequence`, `resetGameState`;
  * `src/components/OddestPuzzleRow.tsx` — the gating that decides which
    row submissions can reach `handleStandoutGuess`;
  * `src/unnamed/part_000` (the Google-Sheets puzzle source) —
    `shuffleArray`, `createShuffledWords` and the per-column puzzle build
    inside `fetchPuzzlesFromSheet`.

Modelling conventions:
  * React `useState` fields become fields of a `GameState` record; each UI
    entry point becomes a pure function `GameState → GameState` describing
    the state committed once the handler (including its awaited animation
    steps) has run to completion.  Animation delays carry no state.
  * JS `Record<number, T>` maps indexed by row (always 0..3 in the source)
    become length-4 `List` fields; a read `m[r]` becomes `l[r]?`, so a
    missing key reads as `none`, exactly like JS `undefined`.
  * JS `Set` values become duplicate-free lists (`jsSetAdd` / `List.erase`
    mirror `Set.add` / `Set.delete`; only membership is ever observed).
  * `Math.random()`-driven choices are passed in explicitly: the
    Fisher–Yates shuffle takes the list of drawn indices, and the random id
    suffixes are supplied by an oracle function.
  * Stale-closure reads in `runCheckSequence` / the win and loss sequences
    (which capture `selections`, `rowCheckStatuses`, `rowStates` at
    callback-creation time) are modelled by passing the entry state `s0`
    separately from the evolving state.
-/

namespace Oddest

/-- `ScoreColor` from Game.tsx: `"RED" | "YELLOW" | "PURPLE"`. -/
inductive ScoreColor
| red
| yellow
| purple
deriving DecidableEq, Repr

/-- `ScoreShape` from Game.tsx: `"circle" | "star"`. -/
inductive ScoreShape
| circle
| star
deriving DecidableEq, Repr

/-- `ScoreItem` from Game.tsx. -/
structure ScoreItem where
  color : ScoreColor
  shape : ScoreShape
deriving DecidableEq, Repr

/-- `FeedbackMessage` from Game.tsx: `"wrong" | "partial" | "lastguess"`.
`correctNotUltimate` renders the source's `"partial"` string. -/
inductive FeedbackMessage
| wrongWord
| correctNotUltimate
| lastguess
deriving DecidableEq, Repr

/-- `GamePhase` from types (part_008): `'playing' | 'checking' | 'animating' | 'ended'`. -/
inductive GamePhase
| playing
| checking
| animating
| ended
deriving DecidableEq, Repr

/-- The `gameResult` values `"won" | "lost"` (the `null` case is `Option.none`). -/
inductive GameResult
| won
| lost
deriving DecidableEq, Repr

/-- `RowDisplayState` from types.ts: `'interactive' | 'sliding' | 'revealed'`. -/
inductive RowDisplayState
| interactive
| sliding
| revealed
deriving DecidableEq, Repr

/-- `RowCheckStatus` from types: `'pending' | 'revealed'`. -/
inductive RowCheckStatus
| pending
| revealed
deriving DecidableEq, Repr

/-- `WordItem` from types.ts. -/
structure WordItem where
  text : String
  id : String
deriving DecidableEq, Repr

/-- `GameRow` from types.ts. -/
structure GameRow where
  id : String
  category : String
  words : List WordItem
  outlierIndex : Nat
  explanation : String
deriving DecidableEq, Repr

/-- `GameData` from types.ts. -/
structure GameData where
  rows : List GameRow
  metaCategory : String
  ultimateOutlierRowIndex : Nat
  ultimateExplanation : String
deriving DecidableEq, Repr

/-- The mutable per-session state of Game.tsx, one field per `useState`
hook that participates in the game logic (rendering-only state such as
`darkMode`, `rowHeight` or the modal flags is omitted).  `isAnimating`
models `isAnimatingRef.current`. -/
structure GameState where
  gamePhase : GamePhase
  gameResult : Option GameResult
  selections : List (Option Nat)
  selectionOrder : List Nat
  oddestPuzzleSelection : Option Nat
  rowStates : List RowDisplayState
  visualRowOrder : List Nat
  showMetaOverlay : Bool
  score : List ScoreItem
  hasUsedCheck : Bool
  failedGuesses : List (List (Option Nat))
  solvedRows : List Nat
  rowsNeedingReselection : List Nat
  feedbackMessage : Option FeedbackMessage
  rowCheckStatuses : List RowCheckStatus
  isAnimating : Bool
deriving DecidableEq, Repr

/-- JS `Set.add`: insert while keeping the list duplicate-free. -/
def jsSetAdd {α : Type} [DecidableEq α] (l : List α) (a : α) : List α :=
  if a ∈ l then l else l ++ [a]

/-- Read `selections[r]` (JS: `undefined` when absent or deleted). -/
def GameState.selection (s : GameState) (r : Nat) : Option Nat :=
  (s.selections[r]?).getD none

/-- Read `failedGuesses[r] || []`. -/
def GameState.failedSet (s : GameState) (r : Nat) : List (Option Nat) :=
  (s.failedGuesses[r]?).getD []

/-- `gameData.rows[r].outlierIndex`, as an optional read (the source only
evaluates it at valid row indices 0..3). -/
def rowOutlierIndex (gd : GameData) (r : Nat) : Option Nat :=
  (gd.rows[r]?).map (·.outlierIndex)

/-- `resetGameState` from Game.tsx (also the state of a freshly created
session): every row interactive and pending, nothing selected, empty
score.  The JS `{}`-initialised row maps are represented pre-sized with
their default values, which read identically through `selection` /
`failedSet`. -/
def initialState : GameState where
  gamePhase := .playing
  gameResult := none
  selections := [none, none, none, none]
  selectionOrder := []
  oddestPuzzleSelection := none
  rowStates := [.interactive, .interactive, .interactive, .interactive]
  visualRowOrder := [0, 1, 2, 3]
  showMetaOverlay := false
  score := []
  hasUsedCheck := false
  failedGuesses := [[], [], [], []]
  solvedRows := []
  rowsNeedingReselection := []
  feedbackMessage := none
  rowCheckStatuses := [.pending, .pending, .pending, .pending]
  isAnimating := false

/-- `handleCardClick(rowIndex, wordIndex)` from Game.tsx (lines 563-596):
rejects the click while not in the playing phase, on a check-revealed row,
on a non-interactive row, or on a word already in `failedGuesses`;
otherwise records the selection (overwriting any previous one), appends
the row to `selectionOrder` if new, clears the row's needs-reselection
flag, the oddest-puzzle selection and the feedback message. -/
def handleCardClick (r w : Nat) (s : GameState) : GameState :=
  if s.gamePhase ≠ .playing then s
  else if s.rowCheckStatuses[r]? = some .revealed then s
  else if s.rowStates[r]? ≠ some .interactive then s
  else if some w ∈ s.failedSet r then s
  else
    { s with
      oddestPuzzleSelection := none
      selections := s.selections.set r (some w)
      selectionOrder :=
        if r ∈ s.selectionOrder then s.selectionOrder else s.selectionOrder ++ [r]
      rowsNeedingReselection := s.rowsNeedingReselection.erase r
      feedbackMessage := none }

/-- `newOrder` computation shared by the win and loss sequences in
Game.tsx: every row except `last` keeps its relative order at positions
0,1,2 and `last` is displayed at position 3. -/
def buildNewOrder (last : Nat) : List Nat :=
  let step : List Nat × Nat → Nat → List Nat × Nat := fun acc i =>
    if i ≠ last then (acc.1.set i acc.2, acc.2 + 1) else acc
  (((List.range 4).foldl step ([0, 0, 0, 0], 0)).1).set last 3

/-- One reveal step of a win/loss sequence: rows already revealed *in the
sequence's stale `rowStates` snapshot* are skipped, the rest transition
(sliding →) revealed. -/
def revealRows (stale : List RowDisplayState) (rows : List Nat) (s : GameState) : GameState :=
  rows.foldl
    (fun acc r =>
      if stale[r]? = some .revealed then acc
      else { acc with rowStates := acc.rowStates.set r .revealed })
    s

/-- `runWinSequence(winnerRowIndex)` from Game.tsx (lines 283-324): guarded
against re-entry by `isAnimatingRef`; reveals the winner row, then the
remaining rows in index order, reorders the winner to the bottom, shows
the meta overlay and ends the game as won. -/
def runWinSequence (winner : Nat) (s : GameState) : GameState :=
  if s.isAnimating then s
  else
    let s1 := { s with isAnimating := true, gamePhase := .animating, gameResult := some .won }
    let s2 :=
      if s.rowStates[winner]? ≠ some .revealed then
        { s1 with rowStates := s1.rowStates.set winner .revealed }
      else s1
    let s3 := revealRows s.rowStates ((List.range 4).filter (fun i => i ≠ winner)) s2
    { s3 with
      visualRowOrder := buildNewOrder winner
      showMetaOverlay := true
      gamePhase := .ended }

/-- `runLossSequence(ultimateRowIndex)` from Game.tsx (lines 326-363):
guarded against re-entry; reveals every not-yet-revealed row in index
order with the ultimate row last, reorders it to the bottom, shows the
meta overlay and ends the game as lost. -/
def runLossSequence (ult : Nat) (s : GameState) : GameState :=
  if s.isAnimating then s
  else
    let s1 := { s with isAnimating := true, gamePhase := .animating, gameResult := some .lost }
    let s2 := revealRows s.rowStates ((List.range 4).filter (fun i => i ≠ ult) ++ [ult]) s1
    { s2 with
      visualRowOrder := buildNewOrder ult
      showMetaOverlay := true
      gamePhase := .ended }

/-- The correct-branch effect of one check iteration (Game.tsx lines
393-400): the row slides and is revealed, `rowCheckStatus` becomes
revealed, no score entry. -/
def checkCorrectUpdate (r : Nat) (s : GameState) : GameState :=
  { s with
    rowStates := s.rowStates.set r .revealed
    rowCheckStatuses := s.rowCheckStatuses.set r .revealed }

/-- The wrong-branch effect of one check iteration (Game.tsx lines
401-424): failed word recorded, RED circle entry appended, selection
cleared, row flagged for reselection, feedback message set. -/
def checkWrongUpdate (r sel : Nat) (s : GameState) : GameState :=
  { s with
    failedGuesses := s.failedGuesses.set r (jsSetAdd (s.failedSet r) (some sel))
    score := s.score ++ [ScoreItem.mk .red .circle]
    selections := s.selections.set r none
    rowsNeedingReselection := jsSetAdd s.rowsNeedingReselection r
    feedbackMessage :=
      some (if s.score.length + 1 = 2 then .lastguess else .wrongWord) }

/-- The body of the `for` loop of `runCheckSequence` (Game.tsx lines
384-435), processing the remaining row indices `rows`.  `s0` is the state
captured by the callback's closure (`selections`, `rowCheckStatuses` are
read from it, matching the stale-closure reads of the source), `s` the
evolving state.  A correct selection reveals the row without scoring; a
wrong one records the failed word, appends a RED circle entry, clears the
selection, flags the row for reselection and sets the feedback message;
if the strike limit of 3 is reached the loop stops and the loss sequence
runs.  After the last row the phase returns to playing. -/
def checkRowsLoop (gd : GameData) (s0 : GameState) : List Nat → GameState → GameState
  | [], s => { s with isAnimating := false, gamePhase := .playing }
  | r :: rest, s =>
    if s0.rowCheckStatuses[r]? = some .revealed then checkRowsLoop gd s0 rest s
    else
      match s0.selection r with
      | none => checkRowsLoop gd s0 rest s
      | some sel =>
        if some sel = rowOutlierIndex gd r then
          checkRowsLoop gd s0 rest (checkCorrectUpdate r s)
        else
          if 3 ≤ (checkWrongUpdate r sel s).score.length then
            runLossSequence gd.ultimateOutlierRowIndex
              { checkWrongUpdate r sel s with isAnimating := false }
          else checkRowsLoop gd s0 rest (checkWrongUpdate r sel s)

/-- `runCheckSequence` from Game.tsx (lines 366-439): guarded against
re-entry; marks Check as used, converts every already-recorded score
entry's shape to a circle (forfeiting Stand Out rewards), then grades the
four rows in order via `checkRowsLoop`. -/
def runCheckSequence (gd : GameData) (s : GameState) : GameState :=
  if s.isAnimating then s
  else
    checkRowsLoop gd s [0, 1, 2, 3]
      { s with
        isAnimating := true
        gamePhase := .checking
        feedbackMessage := none
        hasUsedCheck := true
        score := s.score.map (fun it => { it with shape := .circle }) }

/-- The word index `handleStandoutGuess` judges for row `r`: the row's own
outlier for a check-revealed row (that is what the Oddest Puzzle row
displays), otherwise the pending selection. -/
def standoutJudgedIndex (gd : GameData) (s : GameState) (r : Nat) : Option Nat :=
  if s.rowCheckStatuses[r]? = some .revealed then rowOutlierIndex gd r
  else s.selection r

/-- The source's `isRowOutlier` test
(`selectedIdx === gameData.rows[rowIndex].outlierIndex`): the judged word
index exists and is the row's outlier index. -/
def standoutIsOutlier (gd : GameData) (s : GameState) (r : Nat) : Prop :=
  (rowOutlierIndex gd r).isSome = true ∧
    standoutJudgedIndex gd s r = rowOutlierIndex gd r

instance (gd : GameData) (s : GameState) (r : Nat) :
    Decidable (standoutIsOutlier gd s r) := by
  unfold standoutIsOutlier; infer_instance

/-- `handleStandoutGuess(rowIndex)` from Game.tsx (lines 442-513).  Clears
the oddest-puzzle selection, judges `standoutJudgedIndex`, and applies the
scoring rule: PURPLE + win sequence when the row is the ultimate row and
the judged word its outlier; YELLOW + solved + reveal (+ loss at the
strike limit) for a correct non-ultimate outlier; otherwise RED with
failed-guess bookkeeping (+ loss at the strike limit).  New entries are
stars only while `hasUsedCheck` is false.  (The source reads
`gameData.rows[rowIndex]` only for valid row indices; out-of-range reads
come back `none` here and grade as not-the-outlier.) -/
def handleStandoutGuess (gd : GameData) (r : Nat) (s : GameState) : GameState :=
  let s := { s with oddestPuzzleSelection := none }
  let isRevealed := s.rowCheckStatuses[r]? = some .revealed
  let selectedIdx := standoutJudgedIndex gd s r
  let scoreShape : ScoreShape := if s.hasUsedCheck then .circle else .star
  if r = gd.ultimateOutlierRowIndex ∧ standoutIsOutlier gd s r then
    runWinSequence r { s with score := s.score ++ [ScoreItem.mk .purple scoreShape] }
  else if standoutIsOutlier gd s r then
    let s1 :=
      { s with
        score := s.score ++ [ScoreItem.mk .yellow scoreShape]
        solvedRows := jsSetAdd s.solvedRows r }
    let s2 :=
      if ¬ isRevealed then
        { s1 with
          rowStates := s1.rowStates.set r .revealed
          rowCheckStatuses := s1.rowCheckStatuses.set r .revealed }
      else s1
    let s3 :=
      { s2 with
        feedbackMessage :=
          some (if s1.score.length = 2 then .lastguess else .correctNotUltimate) }
    if 3 ≤ s3.score.length then runLossSequence gd.ultimateOutlierRowIndex s3 else s3
  else
    let s1 :=
      { s with
        score := s.score ++ [ScoreItem.mk .red scoreShape]
        feedbackMessage :=
          some (if s.score.length + 1 = 2 then .lastguess else .wrongWord)
        failedGuesses := s.failedGuesses.set r (jsSetAdd (s.failedSet r) selectedIdx)
        selections := s.selections.set r none
        selectionOrder := s.selectionOrder.filter (fun i => i ≠ r) }
    if 3 ≤ s1.score.length then runLossSequence gd.ultimateOutlierRowIndex s1 else s1

/-- A row is rendered as a clickable card in the Oddest Puzzle row
(OddestPuzzleRow.tsx, fed by Game.tsx lines 1024-1058): it must be in
`selectionOrder`, not flagged for reselection (those slots render an
inert "Pick another word" placeholder), and be either pending with a
selection or check-revealed. -/
def clickableInOddestRow (s : GameState) (r : Nat) : Prop :=
  r ∈ s.selectionOrder ∧ r ∉ s.rowsNeedingReselection ∧
    ((s.rowCheckStatuses[r]? = some .pending ∧ s.selection r ≠ none) ∨
      s.rowCheckStatuses[r]? = some .revealed)

instance (s : GameState) (r : Nat) : Decidable (clickableInOddestRow s r) := by
  unfold clickableInOddestRow; infer_instance

/-- `submitStandoutGuess(rowIndex)` as exposed to the user: the
`handleClick` of OddestPuzzleRow.tsx (lines 32-42) guarded by the
`disabled={gamePhase !== "playing"}` prop, composed with the rendering
gate `clickableInOddestRow`.  The first tap on a card selects it; the
second tap on the same card submits it to `handleStandoutGuess`. -/
def submitStandoutGuess (gd : GameData) (r : Nat) (s : GameState) : GameState :=
  if s.gamePhase ≠ .playing then s
  else if ¬ clickableInOddestRow s r then s
  else if s.oddestPuzzleSelection = some r then handleStandoutGuess gd r s
  else { s with oddestPuzzleSelection := some r }

/-- `unrevealedRowCount` from Game.tsx (line 518). -/
def unrevealedRowCount (s : GameState) : Nat :=
  (s.rowCheckStatuses.filter (fun st => st == .pending)).length

/-- `selectionsInUnrevealedRows` from Game.tsx (lines 519-521): selection
keys whose row is still pending. -/
def selectionsInUnrevealedRows (s : GameState) : Nat :=
  ((List.range s.selections.length).filter
    (fun i => (s.selection i).isSome && (s.rowCheckStatuses[i]? == some .pending))).length

/-- `allRowsSelected` from Game.tsx (lines 524-526): every unrevealed row
has a pending selection (and at least one row is unrevealed). -/
def allRowsSelected (s : GameState) : Prop :=
  0 < unrevealedRowCount s ∧ selectionsInUnrevealedRows s = unrevealedRowCount s

/-- One user-driven mutation of the session.  `select` and `standout` are
always attemptable (their rejections are internal no-ops); `check` is
attemptable only when the Check button is enabled
(`allRowsSelected && gamePhase === "playing"`, Game.tsx lines 1006-1008);
`restart` is `resetGameState` via Play Again / puzzle reload. -/
inductive Step (gd : GameData) : GameState → GameState → Prop
  | select (r w : Nat) (s : GameState) : Step gd s (handleCardClick r w s)
  | check (s : GameState) (hsel : allRowsSelected s) (hph : s.gamePhase = .playing) :
      Step gd s (runCheckSequence gd s)
  | standout (r : Nat) (s : GameState) : Step gd s (submitStandoutGuess gd r s)
  | restart (s : GameState) : Step gd s initialState

/-- States a session can actually be in between user actions. -/
def Reachable (gd : GameData) (s : GameState) : Prop :=
  Relation.ReflTransGen (Step gd) initialState s

/-! ### Structural lemmas about the animation sequences -/

theorem revealRows_eq (stale : List RowDisplayState) :
    ∀ (rows : List Nat) (s : GameState),
      ∃ rs, revealRows stale rows s = { s with rowStates := rs } ∧
        rs.length = s.rowStates.length := by
  intro rows
  induction rows with
  | nil => intro s; exact ⟨s.rowStates, rfl, rfl⟩
  | cons r rest ih =>
    intro s
    by_cases h : stale[r]? = some .revealed
    · obtain ⟨rs, h1, h2⟩ := ih s
      exact ⟨rs, by simpa [revealRows, h] using h1, h2⟩
    · obtain ⟨rs, h1, h2⟩ := ih { s with rowStates := s.rowStates.set r .revealed }
      refine ⟨rs, ?_, by simpa using h2⟩
      simpa [revealRows, h] using h1

theorem runWinSequence_eq (winner : Nat) (s : GameState) (h : s.isAnimating = false) :
    ∃ rs, runWinSequence winner s =
        { s with
          gameResult := some .won
          gamePhase := .ended
          isAnimating := true
          rowStates := rs
          visualRowOrder := buildNewOrder winner
          showMetaOverlay := true } ∧
      rs.length = s.rowStates.length := by
  by_cases hw : s.rowStates[winner]? ≠ some .revealed
  · obtain ⟨rs, h1, h2⟩ := revealRows_eq s.rowStates
      ((List.range 4).filter (fun i => i ≠ winner))
      { s with
        isAnimating := true, gamePhase := .animating, gameResult := some .won,
        rowStates := s.rowStates.set winner .revealed }
    refine ⟨rs, ?_, by simpa using h2⟩
    have hstep : runWinSequence winner s =
        { revealRows s.rowStates ((List.range 4).filter (fun i => i ≠ winner))
            { s with
              isAnimating := true, gamePhase := .animating, gameResult := some .won,
              rowStates := s.rowStates.set winner .revealed } with
          visualRowOrder := buildNewOrder winner
          showMetaOverlay := true
          gamePhase := .ended } := by
      unfold runWinSequence
      rw [if_neg (by simp [h])]
      dsimp only []
      rw [if_pos hw]
    rw [hstep, h1]
  · obtain ⟨rs, h1, h2⟩ := revealRows_eq s.rowStates
      ((List.range 4).filter (fun i => i ≠ winner))
      { s with isAnimating := true, gamePhase := .animating, gameResult := some .won }
    refine ⟨rs, ?_, by simpa using h2⟩
    have hstep : runWinSequence winner s =
        { revealRows s.rowStates ((List.range 4).filter (fun i => i ≠ winner))
            { s with isAnimating := true, gamePhase := .animating, gameResult := some .won } with
          visualRowOrder := buildNewOrder winner
          showMetaOverlay := true
          gamePhase := .ended } := by
      unfold runWinSequence
      rw [if_neg (by simp [h])]
      dsimp only []
      rw [if_neg hw]
    rw [hstep, h1]

theorem runLossSequence_eq (ult : Nat) (s : GameState) (h : s.isAnimating = false) :
    ∃ rs, runLossSequence ult s =
        { s with
          gameResult := some .lost
          gamePhase := .ended
          isAnimating := true
          rowStates := rs
          visualRowOrder := buildNewOrder ult
          showMetaOverlay := true } ∧
      rs.length = s.rowStates.length := by
  obtain ⟨rs, h1, h2⟩ := revealRows_eq s.rowStates
    ((List.range 4).filter (fun i => i ≠ ult) ++ [ult])
    { s with isAnimating := true, gamePhase := .animating, gameResult := some .lost }
  refine ⟨rs, ?_, by simpa using h2⟩
  have hstep : runLossSequence ult s =
      { revealRows s.rowStates ((List.range 4).filter (fun i => i ≠ ult) ++ [ult])
          { s with isAnimating := true, gamePhase := .animating, gameResult := some .lost } with
        visualRowOrder := buildNewOrder ult
        showMetaOverlay := true
        gamePhase := .ended } := by
    unfold runLossSequence
    rw [if_neg (by simp [h])]
  rw [hstep, h1]

theorem runLossSequence_score (ult : Nat) (s : GameState) :
    (runLossSequence ult s).score = s.score := by
  by_cases h : s.isAnimating = true
  · simp [runLossSequence, h]
  · obtain ⟨rs, h1, _⟩ := runLossSequence_eq ult s (by simpa using h)
    simp [h1]

theorem runWinSequence_score (winner : Nat) (s : GameState) :
    (runWinSequence winner s).score = s.score := by
  by_cases h : s.isAnimating = true
  · simp [runWinSequence, h]
  · obtain ⟨rs, h1, _⟩ := runWinSequence_eq winner s (by simpa using h)
    simp [h1]

/-! ### The fallback puzzle (part_000, `createWords` / `fallbackPuzzle`) -/

/-- JS `Array.prototype.map` with the element index, from a start index. -/
def jsMapIdxFrom {α β : Type} (f : Nat → α → β) : Nat → List α → List β
  | _, [] => []
  | i, x :: xs => f i x :: jsMapIdxFrom f (i + 1) xs

/-- JS `l.map((x, idx) => f idx x)`. -/
def jsMapIdx {α β : Type} (f : Nat → α → β) (l : List α) : List β :=
  jsMapIdxFrom f 0 l

/-- `createWords` from part_000: WordItems with deterministic ids. -/
def createWords (texts : List String) (rowIndex : Nat) : List WordItem :=
  jsMapIdx
    (fun idx text =>
      ⟨text, "row-" ++ toString rowIndex ++ "-word-" ++ toString idx⟩)
    texts

/-- `fallbackPuzzle` from part_000. -/
def fallbackPuzzle : GameData where
  rows :=
    [⟨"row-0", "Planets", createWords ["Mars", "Venus", "Jupiter", "Apollo"] 0, 3,
        "Apollo is a NASA program, not a planet.", ⟩,
      ⟨"row-1", "Greek Gods", createWords ["Zeus", "Athena", "Gemini", "Poseidon"] 1, 2,
        "Gemini is a zodiac constellation, not a Greek god."⟩,
      ⟨"row-2", "Card Games", createWords ["Poker", "Blackjack", "Solitaire", "Bridge"] 2, 2,
        "Solitaire is a single-player game, not a multiplayer card game."⟩,
      ⟨"row-3", "Zodiac Signs", createWords ["Aries", "Leo", "Mercury", "Scorpio"] 3, 2,
        "Mercury is a planet, not a zodiac sign."⟩]
  metaCategory := "NASA Space Programs"
  ultimateOutlierRowIndex := 2
  ultimateExplanation :=
    "Apollo, Gemini, and Mercury are all NASA space programs. Solitaire is a card game with no space connection - it is the Ultimate Odd1Out."

/-! ### C9: selectWord guard conditions and effect -/

/-- C9.  `selectWord` (`handleCardClick`) is a strict no-op whenever the
phase is not playing, the target row is not interactive (including
check-revealed rows), or the word is already among the row's failed
guesses; otherwise it records `selections[rowIndex] = wordIndex`,
overwriting any prior pending selection for that row. -/
theorem selectWord_guard_and_effect (r w : Nat) (s : GameState) :
    ((s.gamePhase ≠ .playing ∨ s.rowStates[r]? ≠ some .interactive ∨
        s.rowCheckStatuses[r]? = some .revealed ∨ some w ∈ s.failedSet r) →
      handleCardClick r w s = s) ∧
    (s.gamePhase = .playing → s.rowStates[r]? = some .interactive →
      s.rowCheckStatuses[r]? ≠ some .revealed → some w ∉ s.failedSet r →
      (handleCardClick r w s).selections = s.selections.set r (some w)) := by
  constructor
  · intro h
    unfold handleCardClick
    split_ifs <;> first | rfl | (exfalso; tauto)
  · intro h1 h2 h3 h4
    simp [handleCardClick, h1, h2, h3, h4]

/-- Witness for C9: on a fresh session, clicking word 1 of row 0 records
the selection. -/
theorem selectWord_guard_and_effect_witness :
    (handleCardClick 0 1 initialState).selections =
      initialState.selections.set 0 (some 1) :=
  (selectWord_guard_and_effect 0 1 initialState).2 (by decide) (by decide)
    (by decide) (by decide)

/-! ### C6: submitStandoutGuess rejection -/

/-- C6.  Submitting a Stand Out guess for a row that is neither
pending-with-a-selection nor check-revealed, or submitting while any
win/loss/check sequence is in flight (phase ≠ playing), is silently
rejected: the session state is unchanged (in particular no score entry is
appended). -/
theorem submitStandout_rejected (gd : GameData) (r : Nat) (s : GameState)
    (h : s.gamePhase ≠ .playing ∨
      (¬ (s.rowCheckStatuses[r]? = some .pending ∧ s.selection r ≠ none) ∧
        s.rowCheckStatuses[r]? ≠ some .revealed)) :
    submitStandoutGuess gd r s = s := by
  unfold submitStandoutGuess
  by_cases hp : s.gamePhase ≠ .playing
  · rw [if_pos hp]
  · rcases h with h | ⟨h1, h2⟩
    · exact absurd h hp
    · rw [if_neg hp, if_pos ?_]
      intro ⟨_, _, hor⟩
      rcases hor with hc | hc
      · exact h1 hc
      · exact h2 hc

/-- Witness for C6: on a fresh session, submitting row 0 (pending but with
no selection) changes nothing. -/
theorem submitStandout_rejected_witness :
    submitStandoutGuess fallbackPuzzle 0 initialState = initialState :=
  submitStandout_rejected fallbackPuzzle 0 initialState
    (Or.inr ⟨by decide, by decide⟩)

/-! ### Projection lemmas for the sequences -/

theorem standoutIsOutlier_clearOdd (gd : GameData) (s : GameState) (r : Nat) :
    standoutIsOutlier gd { s with oddestPuzzleSelection := none } r =
      standoutIsOutlier gd s r := rfl

theorem standoutJudgedIndex_clearOdd (gd : GameData) (s : GameState) (r : Nat) :
    standoutJudgedIndex gd { s with oddestPuzzleSelection := none } r =
      standoutJudgedIndex gd s r := rfl

theorem failedSet_clearOdd (s : GameState) (r : Nat) :
    GameState.failedSet { s with oddestPuzzleSelection := none } r =
      s.failedSet r := rfl

theorem selection_clearOdd (s : GameState) (r : Nat) :
    GameState.selection { s with oddestPuzzleSelection := none } r =
      s.selection r := rfl

theorem runLossSequence_gameResult (ult : Nat) (s : GameState) (h : s.isAnimating = false) :
    (runLossSequence ult s).gameResult = some .lost := by
  obtain ⟨rs, heq, _⟩ := runLossSequence_eq ult s h; rw [heq]

theorem runLossSequence_gamePhase (ult : Nat) (s : GameState) (h : s.isAnimating = false) :
    (runLossSequence ult s).gamePhase = .ended := by
  obtain ⟨rs, heq, _⟩ := runLossSequence_eq ult s h; rw [heq]

theorem runLossSequence_isAnimating (ult : Nat) (s : GameState) (h : s.isAnimating = false) :
    (runLossSequence ult s).isAnimating = true := by
  obtain ⟨rs, heq, _⟩ := runLossSequence_eq ult s h; rw [heq]

theorem runLossSequence_failedGuesses (ult : Nat) (s : GameState) :
    (runLossSequence ult s).failedGuesses = s.failedGuesses := by
  by_cases h : s.isAnimating = true
  · simp [runLossSequence, h]
  · obtain ⟨rs, heq, _⟩ := runLossSequence_eq ult s (by simpa using h); rw [heq]

theorem runLossSequence_solvedRows (ult : Nat) (s : GameState) :
    (runLossSequence ult s).solvedRows = s.solvedRows := by
  by_cases h : s.isAnimating = true
  · simp [runLossSequence, h]
  · obtain ⟨rs, heq, _⟩ := runLossSequence_eq ult s (by simpa using h); rw [heq]

theorem runLossSequence_selections (ult : Nat) (s : GameState) :
    (runLossSequence ult s).selections = s.selections := by
  by_cases h : s.isAnimating = true
  · simp [runLossSequence, h]
  · obtain ⟨rs, heq, _⟩ := runLossSequence_eq ult s (by simpa using h); rw [heq]

theorem runLossSequence_selectionOrder (ult : Nat) (s : GameState) :
    (runLossSequence ult s).selectionOrder = s.selectionOrder := by
  by_cases h : s.isAnimating = true
  · simp [runLossSequence, h]
  · obtain ⟨rs, heq, _⟩ := runLossSequence_eq ult s (by simpa using h); rw [heq]

theorem runLossSequence_hasUsedCheck (ult : Nat) (s : GameState) :
    (runLossSequence ult s).hasUsedCheck = s.hasUsedCheck := by
  by_cases h : s.isAnimating = true
  · simp [runLossSequence, h]
  · obtain ⟨rs, heq, _⟩ := runLossSequence_eq ult s (by simpa using h); rw [heq]

theorem runLossSequence_rowCheckStatuses (ult : Nat) (s : GameState) :
    (runLossSequence ult s).rowCheckStatuses = s.rowCheckStatuses := by
  by_cases h : s.isAnimating = true
  · simp [runLossSequence, h]
  · obtain ⟨rs, heq, _⟩ := runLossSequence_eq ult s (by simpa using h); rw [heq]

theorem runLossSequence_rowStates_length (ult : Nat) (s : GameState) :
    (runLossSequence ult s).rowStates.length = s.rowStates.length := by
  by_cases h : s.isAnimating = true
  · simp [runLossSequence, h]
  · obtain ⟨rs, heq, hlen⟩ := runLossSequence_eq ult s (by simpa using h)
    rw [heq]; exact hlen

theorem runWinSequence_gameResult (w : Nat) (s : GameState) (h : s.isAnimating = false) :
    (runWinSequence w s).gameResult = some .won := by
  obtain ⟨rs, heq, _⟩ := runWinSequence_eq w s h; rw [heq]

theorem runWinSequence_gamePhase (w : Nat) (s : GameState) (h : s.isAnimating = false) :
    (runWinSequence w s).gamePhase = .ended := by
  obtain ⟨rs, heq, _⟩ := runWinSequence_eq w s h; rw [heq]

theorem runWinSequence_isAnimating (w : Nat) (s : GameState) (h : s.isAnimating = false) :
    (runWinSequence w s).isAnimating = true := by
  obtain ⟨rs, heq, _⟩ := runWinSequence_eq w s h; rw [heq]

theorem runWinSequence_failedGuesses (w : Nat) (s : GameState) :
    (runWinSequence w s).failedGuesses = s.failedGuesses := by
  by_cases h : s.isAnimating = true
  · simp [runWinSequence, h]
  · obtain ⟨rs, heq, _⟩ := runWinSequence_eq w s (by simpa using h); rw [heq]

theorem runWinSequence_solvedRows (w : Nat) (s : GameState) :
    (runWinSequence w s).solvedRows = s.solvedRows := by
  by_cases h : s.isAnimating = true
  · simp [runWinSequence, h]
  · obtain ⟨rs, heq, _⟩ := runWinSequence_eq w s (by simpa using h); rw [heq]

theorem runWinSequence_selections (w : Nat) (s : GameState) :
    (runWinSequence w s).selections = s.selections := by
  by_cases h : s.isAnimating = true
  · simp [runWinSequence, h]
  · obtain ⟨rs, heq, _⟩ := runWinSequence_eq w s (by simpa using h); rw [heq]

theorem runWinSequence_selectionOrder (w : Nat) (s : GameState) :
    (runWinSequence w s).selectionOrder = s.selectionOrder := by
  by_cases h : s.isAnimating = true
  · simp [runWinSequence, h]
  · obtain ⟨rs, heq, _⟩ := runWinSequence_eq w s (by simpa using h); rw [heq]

theorem runWinSequence_hasUsedCheck (w : Nat) (s : GameState) :
    (runWinSequence w s).hasUsedCheck = s.hasUsedCheck := by
  by_cases h : s.isAnimating = true
  · simp [runWinSequence, h]
  · obtain ⟨rs, heq, _⟩ := runWinSequence_eq w s (by simpa using h); rw [heq]

theorem runWinSequence_rowCheckStatuses (w : Nat) (s : GameState) :
    (runWinSequence w s).rowCheckStatuses = s.rowCheckStatuses := by
  by_cases h : s.isAnimating = true
  · simp [runWinSequence, h]
  · obtain ⟨rs, heq, _⟩ := runWinSequence_eq w s (by simpa using h); rw [heq]

theorem runWinSequence_rowStates_length (w : Nat) (s : GameState) :
    (runWinSequence w s).rowStates.length = s.rowStates.length := by
  by_cases h : s.isAnimating = true
  · simp [runWinSequence, h]
  · obtain ⟨rs, heq, hlen⟩ := runWinSequence_eq w s (by simpa using h)
    rw [heq]; exact hlen

/-! ### Case analysis of handleStandoutGuess -/

/-- Complete outcome analysis of `handleStandoutGuess` from a
non-animating state: exactly one of the PURPLE/YELLOW/RED branches runs,
with the listed effects. -/
theorem handleStandoutGuess_outcome (gd : GameData) (r : Nat) (s : GameState)
    (hA : s.isAnimating = false) :
    (r = gd.ultimateOutlierRowIndex ∧ standoutIsOutlier gd s r ∧
      (handleStandoutGuess gd r s).score =
        s.score ++ [ScoreItem.mk .purple (if s.hasUsedCheck then .circle else .star)] ∧
      (handleStandoutGuess gd r s).gameResult = some .won ∧
      (handleStandoutGuess gd r s).gamePhase = .ended ∧
      (handleStandoutGuess gd r s).isAnimating = true ∧
      (handleStandoutGuess gd r s).failedGuesses = s.failedGuesses ∧
      (handleStandoutGuess gd r s).solvedRows = s.solvedRows ∧
      (handleStandoutGuess gd r s).selections = s.selections ∧
      (handleStandoutGuess gd r s).hasUsedCheck = s.hasUsedCheck ∧
      (handleStandoutGuess gd r s).rowCheckStatuses = s.rowCheckStatuses ∧
      (handleStandoutGuess gd r s).rowStates.length = s.rowStates.length) ∨
    (¬ (r = gd.ultimateOutlierRowIndex ∧ standoutIsOutlier gd s r) ∧
      standoutIsOutlier gd s r ∧
      (handleStandoutGuess gd r s).score =
        s.score ++ [ScoreItem.mk .yellow (if s.hasUsedCheck then .circle else .star)] ∧
      (handleStandoutGuess gd r s).failedGuesses = s.failedGuesses ∧
      (handleStandoutGuess gd r s).solvedRows = jsSetAdd s.solvedRows r ∧
      (handleStandoutGuess gd r s).selections = s.selections ∧
      (handleStandoutGuess gd r s).hasUsedCheck = s.hasUsedCheck ∧
      (handleStandoutGuess gd r s).rowStates.length = s.rowStates.length ∧
      (handleStandoutGuess gd r s).rowCheckStatuses.length = s.rowCheckStatuses.length ∧
      (if 3 ≤ s.score.length + 1 then
        (handleStandoutGuess gd r s).gameResult = some .lost ∧
        (handleStandoutGuess gd r s).gamePhase = .ended
      else
        (handleStandoutGuess gd r s).gameResult = s.gameResult ∧
        (handleStandoutGuess gd r s).gamePhase = s.gamePhase ∧
        (handleStandoutGuess gd r s).isAnimating = false)) ∨
    (¬ standoutIsOutlier gd s r ∧
      (handleStandoutGuess gd r s).score =
        s.score ++ [ScoreItem.mk .red (if s.hasUsedCheck then .circle else .star)] ∧
      (handleStandoutGuess gd r s).failedGuesses =
        s.failedGuesses.set r (jsSetAdd (s.failedSet r) (standoutJudgedIndex gd s r)) ∧
      (handleStandoutGuess gd r s).solvedRows = s.solvedRows ∧
      (handleStandoutGuess gd r s).selections = s.selections.set r none ∧
      (handleStandoutGuess gd r s).hasUsedCheck = s.hasUsedCheck ∧
      (handleStandoutGuess gd r s).rowStates.length = s.rowStates.length ∧
      (handleStandoutGuess gd r s).rowCheckStatuses = s.rowCheckStatuses ∧
      (if 3 ≤ s.score.length + 1 then
        (handleStandoutGuess gd r s).gameResult = some .lost ∧
        (handleStandoutGuess gd r s).gamePhase = .ended
      else
        (handleStandoutGuess gd r s).gameResult = s.gameResult ∧
        (handleStandoutGuess gd r s).gamePhase = s.gamePhase ∧
        (handleStandoutGuess gd r s).isAnimating = false)) := by
  by_cases h1 : r = gd.ultimateOutlierRowIndex ∧ standoutIsOutlier gd s r
  · left
    have hdef : handleStandoutGuess gd r s =
        runWinSequence r
          { s with
            oddestPuzzleSelection := none
            score := s.score ++
              [ScoreItem.mk .purple (if s.hasUsedCheck then .circle else .star)] } := by
      unfold handleStandoutGuess
      dsimp only []
      simp only [standoutIsOutlier_clearOdd, standoutJudgedIndex_clearOdd, failedSet_clearOdd, selection_clearOdd]
      rw [if_pos h1]
    rw [hdef]
    refine ⟨h1.1, h1.2, ?_, ?_, ?_, ?_, ?_, ?_, ?_, ?_, ?_, ?_⟩
    · rw [runWinSequence_score]
    · exact runWinSequence_gameResult _ _ (by simpa using hA)
    · exact runWinSequence_gamePhase _ _ (by simpa using hA)
    · exact runWinSequence_isAnimating _ _ (by simpa using hA)
    · rw [runWinSequence_failedGuesses]
    · rw [runWinSequence_solvedRows]
    · rw [runWinSequence_selections]
    · rw [runWinSequence_hasUsedCheck]
    · rw [runWinSequence_rowCheckStatuses]
    · rw [runWinSequence_rowStates_length]
  · by_cases h2 : standoutIsOutlier gd s r
    · right; left
      by_cases hrev : s.rowCheckStatuses[r]? = some RowCheckStatus.revealed
      · have hdef : handleStandoutGuess gd r s =
            (if 3 ≤ (s.score ++
                [ScoreItem.mk .yellow (if s.hasUsedCheck then .circle else .star)]).length then
              runLossSequence gd.ultimateOutlierRowIndex
                { s with
                  oddestPuzzleSelection := none
                  score := s.score ++
                    [ScoreItem.mk .yellow (if s.hasUsedCheck then .circle else .star)]
                  solvedRows := jsSetAdd s.solvedRows r
                  feedbackMessage :=
                    some (if (s.score ++
                        [ScoreItem.mk .yellow
                          (if s.hasUsedCheck then .circle else .star)]).length = 2
                      then .lastguess else .correctNotUltimate) }
            else
              { s with
                oddestPuzzleSelection := none
                score := s.score ++
                  [ScoreItem.mk .yellow (if s.hasUsedCheck then .circle else .star)]
                solvedRows := jsSetAdd s.solvedRows r
                feedbackMessage :=
                  some (if (s.score ++
                      [ScoreItem.mk .yellow
                        (if s.hasUsedCheck then .circle else .star)]).length = 2
                    then .lastguess else .correctNotUltimate) }) := by
          unfold handleStandoutGuess
          dsimp only []
          simp only [standoutIsOutlier_clearOdd, standoutJudgedIndex_clearOdd, failedSet_clearOdd, selection_clearOdd]
          rw [if_neg h1, if_pos h2, if_neg (not_not_intro hrev)]
        by_cases h3 : 3 ≤ s.score.length + 1
        · rw [hdef, if_pos (by simpa using h3)]
          refine ⟨h1, h2, ?_, ?_, ?_, ?_, ?_, ?_, ?_, ?_⟩
          · rw [runLossSequence_score]
          · rw [runLossSequence_failedGuesses]
          · rw [runLossSequence_solvedRows]
          · rw [runLossSequence_selections]
          · rw [runLossSequence_hasUsedCheck]
          · rw [runLossSequence_rowStates_length]
          · rw [runLossSequence_rowCheckStatuses]
          · rw [if_pos h3]
            exact ⟨runLossSequence_gameResult _ _ (by simpa using hA),
              runLossSequence_gamePhase _ _ (by simpa using hA)⟩
        · rw [hdef, if_neg (by simpa using h3)]
          refine ⟨h1, h2, rfl, rfl, rfl, rfl, rfl, rfl, rfl, ?_⟩
          rw [if_neg h3]
          exact ⟨rfl, rfl, hA⟩
      · have hdef : handleStandoutGuess gd r s =
            (if 3 ≤ (s.score ++
                [ScoreItem.mk .yellow (if s.hasUsedCheck then .circle else .star)]).length then
              runLossSequence gd.ultimateOutlierRowIndex
                { s with
                  oddestPuzzleSelection := none
                  score := s.score ++
                    [ScoreItem.mk .yellow (if s.hasUsedCheck then .circle else .star)]
                  solvedRows := jsSetAdd s.solvedRows r
                  rowStates := s.rowStates.set r .revealed
                  rowCheckStatuses := s.rowCheckStatuses.set r .revealed
                  feedbackMessage :=
                    some (if (s.score ++
                        [ScoreItem.mk .yellow
                          (if s.hasUsedCheck then .circle else .star)]).length = 2
                      then .lastguess else .correctNotUltimate) }
            else
              { s with
                oddestPuzzleSelection := none
                score := s.score ++
                  [ScoreItem.mk .yellow (if s.hasUsedCheck then .circle else .star)]
                solvedRows := jsSetAdd s.solvedRows r
                rowStates := s.rowStates.set r .revealed
                rowCheckStatuses := s.rowCheckStatuses.set r .revealed
                feedbackMessage :=
                  some (if (s.score ++
                      [ScoreItem.mk .yellow
                        (if s.hasUsedCheck then .circle else .star)]).length = 2
                    then .lastguess else .correctNotUltimate) }) := by
          unfold handleStandoutGuess
          dsimp only []
          simp only [standoutIsOutlier_clearOdd, standoutJudgedIndex_clearOdd, failedSet_clearOdd, selection_clearOdd]
          rw [if_neg h1, if_pos h2, if_pos hrev]
        by_cases h3 : 3 ≤ s.score.length + 1
        · rw [hdef, if_pos (by simpa using h3)]
          refine ⟨h1, h2, ?_, ?_, ?_, ?_, ?_, ?_, ?_, ?_⟩
          · rw [runLossSequence_score]
          · rw [runLossSequence_failedGuesses]
          · rw [runLossSequence_solvedRows]
          · rw [runLossSequence_selections]
          · rw [runLossSequence_hasUsedCheck]
          · rw [runLossSequence_rowStates_length]; simp
          · rw [runLossSequence_rowCheckStatuses]; simp
          · rw [if_pos h3]
            exact ⟨runLossSequence_gameResult _ _ (by simpa using hA),
              runLossSequence_gamePhase _ _ (by simpa using hA)⟩
        · rw [hdef, if_neg (by simpa using h3)]
          refine ⟨h1, h2, rfl, rfl, rfl, rfl, rfl, by simp, by simp, ?_⟩
          rw [if_neg h3]
          exact ⟨rfl, rfl, hA⟩
    · right; right
      have hdef : handleStandoutGuess gd r s =
          (if 3 ≤ (s.score ++
              [ScoreItem.mk .red (if s.hasUsedCheck then .circle else .star)]).length then
            runLossSequence gd.ultimateOutlierRowIndex
              { s with
                oddestPuzzleSelection := none
                score := s.score ++
                  [ScoreItem.mk .red (if s.hasUsedCheck then .circle else .star)]
                feedbackMessage :=
                  some (if s.score.length + 1 = 2 then .lastguess else .wrongWord)
                failedGuesses :=
                  s.failedGuesses.set r
                    (jsSetAdd (s.failedSet r) (standoutJudgedIndex gd s r))
                selections := s.selections.set r none
                selectionOrder := s.selectionOrder.filter (fun i => i ≠ r) }
          else
            { s with
              oddestPuzzleSelection := none
              score := s.score ++
                [ScoreItem.mk .red (if s.hasUsedCheck then .circle else .star)]
              feedbackMessage :=
                some (if s.score.length + 1 = 2 then .lastguess else .wrongWord)
              failedGuesses :=
                s.failedGuesses.set r
                  (jsSetAdd (s.failedSet r) (standoutJudgedIndex gd s r))
              selections := s.selections.set r none
              selectionOrder := s.selectionOrder.filter (fun i => i ≠ r) }) := by
        unfold handleStandoutGuess
        dsimp only []
        simp only [standoutIsOutlier_clearOdd, standoutJudgedIndex_clearOdd, failedSet_clearOdd, selection_clearOdd]
        rw [if_neg h1, if_neg h2]
      by_cases h3 : 3 ≤ s.score.length + 1
      · rw [hdef, if_pos (by simpa using h3)]
        refine ⟨h2, ?_, ?_, ?_, ?_, ?_, ?_, ?_, ?_⟩
        · rw [runLossSequence_score]
        · rw [runLossSequence_failedGuesses]
        · rw [runLossSequence_solvedRows]
        · rw [runLossSequence_selections]
        · rw [runLossSequence_hasUsedCheck]
        · rw [runLossSequence_rowStates_length]
        · rw [runLossSequence_rowCheckStatuses]
        · rw [if_pos h3]
          exact ⟨runLossSequence_gameResult _ _ (by simpa using hA),
            runLossSequence_gamePhase _ _ (by simpa using hA)⟩
      · rw [hdef, if_neg (by simpa using h3)]
        refine ⟨h2, rfl, rfl, rfl, rfl, rfl, rfl, rfl, ?_⟩
        rw [if_neg h3]
        exact ⟨rfl, rfl, hA⟩

theorem jsSetAdd_self_mem {α : Type} [DecidableEq α] (l : List α) (a : α) :
    a ∈ jsSetAdd l a := by
  unfold jsSetAdd
  by_cases h : a ∈ l
  · simp [h]
  · simp [h]

/-- Every invocation of `handleStandoutGuess` appends exactly one score
entry, whose shape is a star only while `hasUsedCheck` is false. -/
theorem handleStandoutGuess_score (gd : GameData) (r : Nat) (s : GameState) :
    ∃ c, (handleStandoutGuess gd r s).score =
      s.score ++ [ScoreItem.mk c (if s.hasUsedCheck then ScoreShape.circle else .star)] := by
  unfold handleStandoutGuess
  dsimp only []
  simp only [standoutIsOutlier_clearOdd, standoutJudgedIndex_clearOdd, failedSet_clearOdd]
  split_ifs <;>
    (first | rw [runWinSequence_score] | rw [runLossSequence_score] | skip) <;>
    (first | exact ⟨.purple, rfl⟩ | exact ⟨.yellow, rfl⟩ | exact ⟨.red, rfl⟩)

/-! ### C5: Purple entries -/

/-- C5.  A Stand Out submission appends a Purple entry only when the
guessed row is `ultimateOutlierRowIndex` and the judged word is that
row's outlier, and any invocation that appends a Purple entry ends with
`result = Won`. -/
theorem standout_purple_only_ultimate (gd : GameData) (r : Nat) (s : GameState)
    (hA : s.isAnimating = false) :
    ∀ it ∈ (handleStandoutGuess gd r s).score.drop s.score.length,
      it.color = .purple →
        r = gd.ultimateOutlierRowIndex ∧ standoutIsOutlier gd s r ∧
        (handleStandoutGuess gd r s).gameResult = some .won := by
  intro it hit hp
  rcases handleStandoutGuess_outcome gd r s hA with
    ⟨hu, ho, _, hres, _⟩ | ⟨_, _, hsc, _⟩ | ⟨_, hsc, _⟩
  · exact ⟨hu, ho, hres⟩
  · exfalso
    rw [hsc, List.drop_left] at hit
    simp only [List.mem_singleton] at hit
    rw [hit] at hp
    exact absurd hp (by simp)
  · exfalso
    rw [hsc, List.drop_left] at hit
    simp only [List.mem_singleton] at hit
    rw [hit] at hp
    exact absurd hp (by simp)

/-- Concrete session used in the C5 witness: the ultimate row (row 2 of
the fallback puzzle) has its outlier word selected. -/
def c5State : GameState :=
  { initialState with selections := [none, none, some 2, none] }

/-- Witness for C5 at a winning Stand Out submission: the purple entry
appended from `c5State` really implies the ultimate-row conditions and
the won result. -/
theorem standout_purple_only_ultimate_witness :
    2 = fallbackPuzzle.ultimateOutlierRowIndex ∧
    standoutIsOutlier fallbackPuzzle c5State 2 ∧
    (handleStandoutGuess fallbackPuzzle 2 c5State).gameResult = some .won :=
  standout_purple_only_ultimate fallbackPuzzle 2 c5State rfl
    (ScoreItem.mk .purple .star) (by decide) (by decide)

/-! ### C10: Stand Out on a revealed row -/

/-- C10.  Submitting a check-revealed row via Stand Out judges the row's
own outlier regardless of any stale pending selection: it can never
append a Red entry or touch `failedGuesses`; it appends Purple and wins
when the row is the ultimate row, and otherwise appends Yellow and adds
the row to `solvedRows`. -/
theorem standout_revealed_row (gd : GameData) (r : Nat) (s : GameState)
    (hrev : s.rowCheckStatuses[r]? = some .revealed)
    (hA : s.isAnimating = false)
    (hr : (rowOutlierIndex gd r).isSome = true) :
    (handleStandoutGuess gd r s).failedGuesses = s.failedGuesses ∧
    (∀ it ∈ (handleStandoutGuess gd r s).score.drop s.score.length, it.color ≠ .red) ∧
    (r = gd.ultimateOutlierRowIndex →
      (handleStandoutGuess gd r s).score =
        s.score ++ [ScoreItem.mk .purple (if s.hasUsedCheck then .circle else .star)] ∧
      (handleStandoutGuess gd r s).gameResult = some .won) ∧
    (r ≠ gd.ultimateOutlierRowIndex →
      (handleStandoutGuess gd r s).score =
        s.score ++ [ScoreItem.mk .yellow (if s.hasUsedCheck then .circle else .star)] ∧
      r ∈ (handleStandoutGuess gd r s).solvedRows) := by
  have hout : standoutIsOutlier gd s r := by
    refine ⟨hr, ?_⟩
    unfold standoutJudgedIndex
    rw [if_pos hrev]
  rcases handleStandoutGuess_outcome gd r s hA with
    ⟨hu, _, hsc, hres, _, _, hfail, _⟩ |
    ⟨hnu, _, hsc, hfail, hsolved, _⟩ |
    ⟨hno, _⟩
  · refine ⟨hfail, ?_, fun _ => ⟨hsc, hres⟩, fun hne => absurd hu hne⟩
    intro it hit
    rw [hsc, List.drop_left] at hit
    simp only [List.mem_singleton] at hit
    rw [hit]
    simp
  · have hne : r ≠ gd.ultimateOutlierRowIndex := fun he => hnu ⟨he, hout⟩
    refine ⟨hfail, ?_, fun he => absurd he hne, fun _ => ⟨hsc, ?_⟩⟩
    · intro it hit
      rw [hsc, List.drop_left] at hit
      simp only [List.mem_singleton] at hit
      rw [hit]
      simp
    · rw [hsolved]
      exact jsSetAdd_self_mem _ _
  · exact absurd hout hno

/-- Concrete session used in the C10 witness: row 0 (not the ultimate
row) is check-revealed. -/
def c10State : GameState :=
  { initialState with
    rowCheckStatuses := [.revealed, .pending, .pending, .pending]
    rowStates := [.revealed, .interactive, .interactive, .interactive] }

/-- Witness for C10: resubmitting revealed row 0 appends Yellow and marks
it solved, leaving `failedGuesses` untouched. -/
theorem standout_revealed_row_witness :
    (handleStandoutGuess fallbackPuzzle 0 c10State).failedGuesses =
      c10State.failedGuesses ∧
    (handleStandoutGuess fallbackPuzzle 0 c10State).score =
      c10State.score ++
        [ScoreItem.mk .yellow (if c10State.hasUsedCheck then .circle else .star)] ∧
    0 ∈ (handleStandoutGuess fallbackPuzzle 0 c10State).solvedRows :=
  ⟨(standout_revealed_row fallbackPuzzle 0 c10State (by decide) rfl (by decide)).1,
    (standout_revealed_row fallbackPuzzle 0 c10State (by decide) rfl (by decide)).2.2.2
      (by decide)⟩

/-! ### Step lemmas for the check loop -/

theorem checkRowsLoop_nil (gd : GameData) (s0 s : GameState) :
    checkRowsLoop gd s0 [] s = { s with isAnimating := false, gamePhase := .playing } := rfl

theorem checkRowsLoop_cons_revealed (gd : GameData) (s0 s : GameState) (r : Nat)
    (rest : List Nat) (h : s0.rowCheckStatuses[r]? = some .revealed) :
    checkRowsLoop gd s0 (r :: rest) s = checkRowsLoop gd s0 rest s := by
  conv_lhs => rw [checkRowsLoop]
  dsimp only []
  rw [if_pos h]

theorem checkRowsLoop_cons_noSel (gd : GameData) (s0 s : GameState) (r : Nat)
    (rest : List Nat) (h1 : ¬ s0.rowCheckStatuses[r]? = some .revealed)
    (h2 : s0.selection r = none) :
    checkRowsLoop gd s0 (r :: rest) s = checkRowsLoop gd s0 rest s := by
  conv_lhs => rw [checkRowsLoop]
  dsimp only []
  rw [if_neg h1, h2]

theorem checkRowsLoop_cons_correct (gd : GameData) (s0 s : GameState) (r sel : Nat)
    (rest : List Nat) (h1 : ¬ s0.rowCheckStatuses[r]? = some .revealed)
    (h2 : s0.selection r = some sel) (h3 : some sel = rowOutlierIndex gd r) :
    checkRowsLoop gd s0 (r :: rest) s =
      checkRowsLoop gd s0 rest (checkCorrectUpdate r s) := by
  conv_lhs => rw [checkRowsLoop]
  dsimp only []
  rw [if_neg h1, h2]
  dsimp only []
  rw [if_pos h3]

theorem checkRowsLoop_cons_wrong_halt (gd : GameData) (s0 s : GameState) (r sel : Nat)
    (rest : List Nat) (h1 : ¬ s0.rowCheckStatuses[r]? = some .revealed)
    (h2 : s0.selection r = some sel) (h3 : ¬ some sel = rowOutlierIndex gd r)
    (h4 : 3 ≤ s.score.length + 1) :
    checkRowsLoop gd s0 (r :: rest) s =
      runLossSequence gd.ultimateOutlierRowIndex
        { checkWrongUpdate r sel s with isAnimating := false } := by
  conv_lhs => rw [checkRowsLoop]
  dsimp only []
  rw [if_neg h1, h2]
  dsimp only []
  rw [if_neg h3, if_pos (by simpa [checkWrongUpdate] using h4)]

theorem checkRowsLoop_cons_wrong_continue (gd : GameData) (s0 s : GameState) (r sel : Nat)
    (rest : List Nat) (h1 : ¬ s0.rowCheckStatuses[r]? = some .revealed)
    (h2 : s0.selection r = some sel) (h3 : ¬ some sel = rowOutlierIndex gd r)
    (h4 : ¬ 3 ≤ s.score.length + 1) :
    checkRowsLoop gd s0 (r :: rest) s =
      checkRowsLoop gd s0 rest (checkWrongUpdate r sel s) := by
  conv_lhs => rw [checkRowsLoop]
  dsimp only []
  rw [if_neg h1, h2]
  dsimp only []
  rw [if_neg h3, if_neg (by simpa [checkWrongUpdate] using h4)]

/-- All score entries stay circles through the check loop. -/
theorem checkRowsLoop_shape (gd : GameData) (s0 : GameState) :
    ∀ (rows : List Nat) (s : GameState),
      (∀ it ∈ s.score, it.shape = .circle) →
      ∀ it ∈ (checkRowsLoop gd s0 rows s).score, it.shape = .circle := by
  intro rows
  induction rows with
  | nil =>
    intro s h
    rw [checkRowsLoop_nil]
    exact h
  | cons r rest ih =>
    intro s h
    by_cases h1 : s0.rowCheckStatuses[r]? = some RowCheckStatus.revealed
    · rw [checkRowsLoop_cons_revealed gd s0 s r rest h1]
      exact ih s h
    · rcases hsel : s0.selection r with _ | sel
      · rw [checkRowsLoop_cons_noSel gd s0 s r rest h1 hsel]
        exact ih s h
      · by_cases h3 : some sel = rowOutlierIndex gd r
        · rw [checkRowsLoop_cons_correct gd s0 s r sel rest h1 hsel h3]
          exact ih _ h
        · have hstep : ∀ it ∈ (checkWrongUpdate r sel s).score, it.shape = .circle := by
            intro it hit
            rcases List.mem_append.1 hit with hold | hnew
            · exact h it hold
            · simp only [List.mem_singleton] at hnew
              rw [hnew]
          by_cases h4 : 3 ≤ s.score.length + 1
          · rw [checkRowsLoop_cons_wrong_halt gd s0 s r sel rest h1 hsel h3 h4]
            intro it hit
            rw [runLossSequence_score] at hit
            exact hstep it hit
          · rw [checkRowsLoop_cons_wrong_continue gd s0 s r sel rest h1 hsel h3 h4]
            exact ih _ hstep

/-- After any (non-re-entrant) `runCheck` invocation, every score entry
carries the circle shape: pre-existing stars are converted and newly
appended strike entries are created as circles. -/
theorem runCheckSequence_allCircle (gd : GameData) (s : GameState)
    (hA : s.isAnimating = false) :
    ∀ it ∈ (runCheckSequence gd s).score, it.shape = .circle := by
  unfold runCheckSequence
  rw [if_neg (by simp [hA])]
  apply checkRowsLoop_shape
  intro it hit
  simp only [List.mem_map] at hit
  obtain ⟨a, _, ha⟩ := hit
  rw [← ha]

/-! ### C2: runCheck retags existing entries -/

/-- A mid-session state holding one StoodOut (star) Yellow entry earned
by a successful Stand Out guess on row 0, with the three remaining rows
selected so that the Check button is available. -/
def c2State : GameState :=
  { initialState with
    score := [ScoreItem.mk .yellow .star]
    solvedRows := [0]
    selectionOrder := [0, 1, 2, 3]
    selections := [none, some 2, some 2, some 2]
    rowStates := [.revealed, .interactive, .interactive, .interactive]
    rowCheckStatuses := [.revealed, .pending, .pending, .pending] }

/-- Counterexample to C2 as stated: invoking `runCheck` does *not* leave
the tag of the already-recorded entry unchanged — the recorded
Yellow/star entry comes out of `runCheckSequence` as Yellow/circle. -/
theorem runCheck_retag_counterexample :
    c2State.score[0]? = some (ScoreItem.mk .yellow .star) ∧
    (runCheckSequence fallbackPuzzle c2State).score[0]? =
      some (ScoreItem.mk .yellow .circle) := by
  constructor
  · rfl
  · decide

/-- C2 (amended).  Invoking `runCheck` converts the StoodOut (star) tag
of every score entry already recorded to Checked (circle), and every
entry appended afterwards in the same invocation is Checked as well: all
entries of the resulting score carry the circle tag. -/
theorem runCheck_retags_all_entries (gd : GameData) (s : GameState)
    (hA : s.isAnimating = false) :
    ∀ it ∈ (runCheckSequence gd s).score, it.shape = .circle :=
  runCheckSequence_allCircle gd s hA

/-- Witness for the amended C2 at the concrete star-holding session: the
formerly starred Yellow entry comes out of the run as a circle. -/
theorem runCheck_retags_all_entries_witness :
    ScoreItem.mk .yellow .circle ∈ (runCheckSequence fallbackPuzzle c2State).score ∧
    (ScoreItem.mk ScoreColor.yellow ScoreShape.circle).shape = ScoreShape.circle :=
  ⟨by decide,
    runCheck_retags_all_entries fallbackPuzzle c2State rfl
      (ScoreItem.mk .yellow .circle) (by decide)⟩

/-! ### C3: no StoodOut tag after Check has been used -/

theorem handleCardClick_score (r w : Nat) (s : GameState) :
    (handleCardClick r w s).score = s.score := by
  unfold handleCardClick
  split_ifs <;> rfl

/-- C3.  Once `runCheck` has been used (`hasUsedCheck = true`), no user
action — including `submitStandoutGuess` — appends a score entry tagged
StoodOut: every entry beyond the previously recorded ones is a circle. -/
theorem no_star_after_check (gd : GameData) (s s' : GameState)
    (hc : s.hasUsedCheck = true) (hstep : Step gd s s') :
    ∀ it ∈ s'.score.drop s.score.length, it.shape = .circle := by
  cases hstep with
  | select r w _ =>
    rw [handleCardClick_score, List.drop_length]
    intro it hit
    exact absurd hit (List.not_mem_nil it)
  | check _ hsel hph =>
    by_cases hA : s.isAnimating = true
    · have : runCheckSequence gd s = s := by
        unfold runCheckSequence
        rw [if_pos hA]
      rw [this, List.drop_length]
      intro it hit
      exact absurd hit (List.not_mem_nil it)
    · intro it hit
      exact runCheckSequence_allCircle gd s (by simpa using hA) it (List.mem_of_mem_drop hit)
  | standout r _ =>
    unfold submitStandoutGuess
    split_ifs with hp hclick hsel
    · rw [List.drop_length]
      intro it hit
      exact absurd hit (List.not_mem_nil it)
    · obtain ⟨c, hsc⟩ := handleStandoutGuess_score gd r s
      rw [hsc, hc, List.drop_left]
      intro it hit
      simp only [List.mem_singleton] at hit
      rw [hit]
      simp
    · rw [show ({ s with oddestPuzzleSelection := some r } : GameState).score = s.score from rfl,
        List.drop_length]
      intro it hit
      exact absurd hit (List.not_mem_nil it)
    · rw [List.drop_length]
      intro it hit
      exact absurd hit (List.not_mem_nil it)
  | restart _ =>
    intro it hit
    rw [show initialState.score = [] from rfl] at hit
    simp at hit

/-- Session with `hasUsedCheck` already set and a wrong word selected
and primed for a Stand Out submission on row 0, used by the C3 witness. -/
def c3State : GameState :=
  { initialState with
    hasUsedCheck := true
    selections := [some 0, none, none, none]
    selectionOrder := [0]
    oddestPuzzleSelection := some 0 }

/-- Witness for C3: after Check has been used, the Stand Out step on
`c3State` appends a circle (never a star) entry. -/
theorem no_star_after_check_witness :
    ScoreItem.mk .red .circle ∈
      (submitStandoutGuess fallbackPuzzle 0 c3State).score.drop c3State.score.length ∧
    (ScoreItem.mk ScoreColor.red ScoreShape.circle).shape = ScoreShape.circle :=
  ⟨by decide,
    no_star_after_check fallbackPuzzle c3State
      (submitStandoutGuess fallbackPuzzle 0 c3State) rfl (Step.standout 0 c3State)
      (ScoreItem.mk .red .circle) (by decide)⟩

/-! ### C4: functional characterization of the Check protocol

`CheckOutcome` / `checkSpec` are modelled from the specification's own
description of the Check protocol ("iterates pending rows in index order
...  Processing halts immediately if the strike limit is reached
mid-iteration"), to be compared with the implementation's
`runCheckSequence`. -/

/-- Summary of one Check pass as the spec describes it: rows revealed as
correct, rows struck as wrong (in processing order), and whether the
strike limit halted the iteration. -/
structure CheckOutcome where
  okRows : List Nat
  struckRows : List Nat
  halted : Bool
deriving DecidableEq, Repr

/-- The Check protocol as described by the spec: process the rows in the
given order, skipping rows for which `skip` holds; a `correct` row is
revealed, a wrong row is struck; processing halts as soon as the strike
count (starting from `n`) reaches 3. -/
def checkSpec (skip correct : Nat → Bool) : Nat → List Nat → CheckOutcome
  | _, [] => ⟨[], [], false⟩
  | n, r :: rest =>
    if skip r then checkSpec skip correct n rest
    else if correct r then
      ⟨r :: (checkSpec skip correct n rest).okRows,
        (checkSpec skip correct n rest).struckRows,
        (checkSpec skip correct n rest).halted⟩
    else if 3 ≤ n + 1 then ⟨[], [r], true⟩
    else
      ⟨(checkSpec skip correct (n + 1) rest).okRows,
        r :: (checkSpec skip correct (n + 1) rest).struckRows,
        (checkSpec skip correct (n + 1) rest).halted⟩

/-- The implementation's skip condition for a row: already check-revealed
or no pending selection (both read from the loop's entry state). -/
def checkSkip (s0 : GameState) (r : Nat) : Bool :=
  decide (s0.rowCheckStatuses[r]? = some .revealed) || (s0.selection r).isNone

/-- The implementation's per-row correctness test: the pending selection
equals the row's outlier index. -/
def checkCorrect (gd : GameData) (s0 : GameState) (r : Nat) : Bool :=
  (s0.selection r).isSome && decide (s0.selection r = rowOutlierIndex gd r)

theorem checkSpec_nil (skip correct : Nat → Bool) (n : Nat) :
    checkSpec skip correct n [] = ⟨[], [], false⟩ := rfl

theorem checkSpec_cons_skip (skip correct : Nat → Bool) (n r : Nat) (rest : List Nat)
    (h : skip r = true) :
    checkSpec skip correct n (r :: rest) = checkSpec skip correct n rest := by
  conv_lhs => rw [checkSpec]
  rw [if_pos h]

theorem checkSpec_cons_ok (skip correct : Nat → Bool) (n r : Nat) (rest : List Nat)
    (h1 : skip r = false) (h2 : correct r = true) :
    checkSpec skip correct n (r :: rest) =
      ⟨r :: (checkSpec skip correct n rest).okRows,
        (checkSpec skip correct n rest).struckRows,
        (checkSpec skip correct n rest).halted⟩ := by
  conv_lhs => rw [checkSpec]
  rw [if_neg (by simp [h1]), if_pos h2]

theorem checkSpec_cons_halt (skip correct : Nat → Bool) (n r : Nat) (rest : List Nat)
    (h1 : skip r = false) (h2 : correct r = false) (h3 : 3 ≤ n + 1) :
    checkSpec skip correct n (r :: rest) = ⟨[], [r], true⟩ := by
  conv_lhs => rw [checkSpec]
  rw [if_neg (by simp [h1]), if_neg (by simp [h2]), if_pos h3]

theorem checkSpec_cons_wrong (skip correct : Nat → Bool) (n r : Nat) (rest : List Nat)
    (h1 : skip r = false) (h2 : correct r = false) (h3 : ¬ 3 ≤ n + 1) :
    checkSpec skip correct n (r :: rest) =
      ⟨(checkSpec skip correct (n + 1) rest).okRows,
        r :: (checkSpec skip correct (n + 1) rest).struckRows,
        (checkSpec skip correct (n + 1) rest).halted⟩ := by
  conv_lhs => rw [checkSpec]
  rw [if_neg (by simp [h1]), if_neg (by simp [h2]), if_neg h3]

theorem checkSkip_of_revealed (s0 : GameState) (r : Nat)
    (h : s0.rowCheckStatuses[r]? = some .revealed) : checkSkip s0 r = true := by
  simp [checkSkip, h]

theorem checkSkip_of_noSel (s0 : GameState) (r : Nat)
    (h : s0.selection r = none) : checkSkip s0 r = true := by
  simp [checkSkip, h]

theorem checkSkip_false (s0 : GameState) (r sel : Nat)
    (h1 : ¬ s0.rowCheckStatuses[r]? = some .revealed)
    (h2 : s0.selection r = some sel) : checkSkip s0 r = false := by
  simp [checkSkip, h1, h2]

theorem checkCorrect_true (gd : GameData) (s0 : GameState) (r sel : Nat)
    (h2 : s0.selection r = some sel) (h3 : some sel = rowOutlierIndex gd r) :
    checkCorrect gd s0 r = true := by
  simp [checkCorrect, h2, ← h3]

theorem checkCorrect_false (gd : GameData) (s0 : GameState) (r sel : Nat)
    (h2 : s0.selection r = some sel) (h3 : ¬ some sel = rowOutlierIndex gd r) :
    checkCorrect gd s0 r = false := by
  simp [checkCorrect, h2]
  intro h
  exact absurd h h3

@[simp] theorem checkCorrectUpdate_score (r : Nat) (s : GameState) :
    (checkCorrectUpdate r s).score = s.score := rfl

@[simp] theorem checkCorrectUpdate_selections (r : Nat) (s : GameState) :
    (checkCorrectUpdate r s).selections = s.selections := rfl

@[simp] theorem checkCorrectUpdate_failedGuesses (r : Nat) (s : GameState) :
    (checkCorrectUpdate r s).failedGuesses = s.failedGuesses := rfl

@[simp] theorem checkCorrectUpdate_gameResult (r : Nat) (s : GameState) :
    (checkCorrectUpdate r s).gameResult = s.gameResult := rfl

@[simp] theorem checkCorrectUpdate_rowCheckStatuses (r : Nat) (s : GameState) :
    (checkCorrectUpdate r s).rowCheckStatuses = s.rowCheckStatuses.set r .revealed := rfl

@[simp] theorem checkWrongUpdate_score (r sel : Nat) (s : GameState) :
    (checkWrongUpdate r sel s).score = s.score ++ [ScoreItem.mk .red .circle] := rfl

@[simp] theorem checkWrongUpdate_selections (r sel : Nat) (s : GameState) :
    (checkWrongUpdate r sel s).selections = s.selections.set r none := rfl

@[simp] theorem checkWrongUpdate_failedGuesses (r sel : Nat) (s : GameState) :
    (checkWrongUpdate r sel s).failedGuesses =
      s.failedGuesses.set r (jsSetAdd (s.failedSet r) (some sel)) := rfl

@[simp] theorem checkWrongUpdate_gameResult (r sel : Nat) (s : GameState) :
    (checkWrongUpdate r sel s).gameResult = s.gameResult := rfl

@[simp] theorem checkWrongUpdate_rowCheckStatuses (r sel : Nat) (s : GameState) :
    (checkWrongUpdate r sel s).rowCheckStatuses = s.rowCheckStatuses := rfl

theorem checkRowsLoop_score_spec (gd : GameData) (s0 : GameState) :
    ∀ (rows : List Nat) (s : GameState),
      (checkRowsLoop gd s0 rows s).score =
        s.score ++
          ((checkSpec (checkSkip s0) (checkCorrect gd s0) s.score.length rows).struckRows.map
            (fun _ => ScoreItem.mk .red .circle)) := by
  intro rows
  induction rows with
  | nil =>
    intro s
    rw [checkRowsLoop_nil, checkSpec_nil]
    simp
  | cons r rest ih =>
    intro s
    by_cases h1 : s0.rowCheckStatuses[r]? = some RowCheckStatus.revealed
    · rw [checkRowsLoop_cons_revealed gd s0 s r rest h1,
        checkSpec_cons_skip _ _ _ _ _ (checkSkip_of_revealed s0 r h1), ih s]
    · rcases hsel : s0.selection r with _ | sel
      · rw [checkRowsLoop_cons_noSel gd s0 s r rest h1 hsel,
          checkSpec_cons_skip _ _ _ _ _ (checkSkip_of_noSel s0 r hsel), ih s]
      · by_cases h3 : some sel = rowOutlierIndex gd r
        · rw [checkRowsLoop_cons_correct gd s0 s r sel rest h1 hsel h3,
            checkSpec_cons_ok _ _ _ _ _ (checkSkip_false s0 r sel h1 hsel)
              (checkCorrect_true gd s0 r sel hsel h3),
            ih (checkCorrectUpdate r s)]
          simp
        · by_cases h4 : 3 ≤ s.score.length + 1
          · rw [checkRowsLoop_cons_wrong_halt gd s0 s r sel rest h1 hsel h3 h4,
              checkSpec_cons_halt _ _ _ _ _ (checkSkip_false s0 r sel h1 hsel)
                (checkCorrect_false gd s0 r sel hsel h3) h4,
              runLossSequence_score]
            simp
          · rw [checkRowsLoop_cons_wrong_continue gd s0 s r sel rest h1 hsel h3 h4,
              checkSpec_cons_wrong _ _ _ _ _ (checkSkip_false s0 r sel h1 hsel)
                (checkCorrect_false gd s0 r sel hsel h3) h4,
              ih (checkWrongUpdate r sel s)]
            simp

theorem checkRowsLoop_end_spec (gd : GameData) (s0 : GameState) :
    ∀ (rows : List Nat) (s : GameState),
      ((checkSpec (checkSkip s0) (checkCorrect gd s0) s.score.length rows).halted = true →
        (checkRowsLoop gd s0 rows s).gameResult = some .lost ∧
        (checkRowsLoop gd s0 rows s).gamePhase = .ended) ∧
      ((checkSpec (checkSkip s0) (checkCorrect gd s0) s.score.length rows).halted = false →
        (checkRowsLoop gd s0 rows s).gameResult = s.gameResult ∧
        (checkRowsLoop gd s0 rows s).gamePhase = .playing ∧
        (checkRowsLoop gd s0 rows s).isAnimating = false) := by
  intro rows
  induction rows with
  | nil =>
    intro s
    rw [checkRowsLoop_nil, checkSpec_nil]
    exact ⟨fun h => by simp at h, fun _ => ⟨rfl, rfl, rfl⟩⟩
  | cons r rest ih =>
    intro s
    by_cases h1 : s0.rowCheckStatuses[r]? = some RowCheckStatus.revealed
    · rw [checkRowsLoop_cons_revealed gd s0 s r rest h1,
        checkSpec_cons_skip _ _ _ _ _ (checkSkip_of_revealed s0 r h1)]
      exact ih s
    · rcases hsel : s0.selection r with _ | sel
      · rw [checkRowsLoop_cons_noSel gd s0 s r rest h1 hsel,
          checkSpec_cons_skip _ _ _ _ _ (checkSkip_of_noSel s0 r hsel)]
        exact ih s
      · by_cases h3 : some sel = rowOutlierIndex gd r
        · rw [checkRowsLoop_cons_correct gd s0 s r sel rest h1 hsel h3,
            checkSpec_cons_ok _ _ _ _ _ (checkSkip_false s0 r sel h1 hsel)
              (checkCorrect_true gd s0 r sel hsel h3)]
          exact ih (checkCorrectUpdate r s)
        · by_cases h4 : 3 ≤ s.score.length + 1
          · rw [checkRowsLoop_cons_wrong_halt gd s0 s r sel rest h1 hsel h3 h4,
              checkSpec_cons_halt _ _ _ _ _ (checkSkip_false s0 r sel h1 hsel)
                (checkCorrect_false gd s0 r sel hsel h3) h4]
            refine ⟨fun _ => ⟨?_, ?_⟩, fun h => by simp at h⟩
            · exact runLossSequence_gameResult _ _ rfl
            · exact runLossSequence_gamePhase _ _ rfl
          · rw [checkRowsLoop_cons_wrong_continue gd s0 s r sel rest h1 hsel h3 h4,
              checkSpec_cons_wrong _ _ _ _ _ (checkSkip_false s0 r sel h1 hsel)
                (checkCorrect_false gd s0 r sel hsel h3) h4]
            have := ih (checkWrongUpdate r sel s)
            simpa using this

theorem checkRowsLoop_lengths (gd : GameData) (s0 : GameState) :
    ∀ (rows : List Nat) (s : GameState),
      (checkRowsLoop gd s0 rows s).selections.length = s.selections.length ∧
      (checkRowsLoop gd s0 rows s).rowStates.length = s.rowStates.length ∧
      (checkRowsLoop gd s0 rows s).rowCheckStatuses.length = s.rowCheckStatuses.length ∧
      (checkRowsLoop gd s0 rows s).failedGuesses.length = s.failedGuesses.length := by
  intro rows
  induction rows with
  | nil =>
    intro s
    rw [checkRowsLoop_nil]
    exact ⟨rfl, rfl, rfl, rfl⟩
  | cons r rest ih =>
    intro s
    by_cases h1 : s0.rowCheckStatuses[r]? = some RowCheckStatus.revealed
    · rw [checkRowsLoop_cons_revealed gd s0 s r rest h1]
      exact ih s
    · rcases hsel : s0.selection r with _ | sel
      · rw [checkRowsLoop_cons_noSel gd s0 s r rest h1 hsel]
        exact ih s
      · by_cases h3 : some sel = rowOutlierIndex gd r
        · rw [checkRowsLoop_cons_correct gd s0 s r sel rest h1 hsel h3]
          have := ih (checkCorrectUpdate r s)
          simpa [checkCorrectUpdate] using this
        · by_cases h4 : 3 ≤ s.score.length + 1
          · rw [checkRowsLoop_cons_wrong_halt gd s0 s r sel rest h1 hsel h3 h4]
            refine ⟨?_, ?_, ?_, ?_⟩
            · rw [runLossSequence_selections]
              simp [checkWrongUpdate]
            · rw [runLossSequence_rowStates_length]
              simp [checkWrongUpdate]
            · rw [runLossSequence_rowCheckStatuses]
              simp [checkWrongUpdate]
            · rw [runLossSequence_failedGuesses]
              simp [checkWrongUpdate]
          · rw [checkRowsLoop_cons_wrong_continue gd s0 s r sel rest h1 hsel h3 h4]
            have := ih (checkWrongUpdate r sel s)
            simpa [checkWrongUpdate] using this

theorem checkRowsLoop_statuses_frame (gd : GameData) (s0 : GameState) :
    ∀ (rows : List Nat) (s : GameState) (q : Nat),
      q ∉ (checkSpec (checkSkip s0) (checkCorrect gd s0) s.score.length rows).okRows →
      (checkRowsLoop gd s0 rows s).rowCheckStatuses[q]? = s.rowCheckStatuses[q]? := by
  intro rows
  induction rows with
  | nil =>
    intro s q _
    rw [checkRowsLoop_nil]
  | cons r rest ih =>
    intro s q hq
    by_cases h1 : s0.rowCheckStatuses[r]? = some RowCheckStatus.revealed
    · rw [checkSpec_cons_skip _ _ _ _ _ (checkSkip_of_revealed s0 r h1)] at hq
      rw [checkRowsLoop_cons_revealed gd s0 s r rest h1]
      exact ih s q hq
    · rcases hsel : s0.selection r with _ | sel
      · rw [checkSpec_cons_skip _ _ _ _ _ (checkSkip_of_noSel s0 r hsel)] at hq
        rw [checkRowsLoop_cons_noSel gd s0 s r rest h1 hsel]
        exact ih s q hq
      · by_cases h3 : some sel = rowOutlierIndex gd r
        · rw [checkSpec_cons_ok _ _ _ _ _ (checkSkip_false s0 r sel h1 hsel)
            (checkCorrect_true gd s0 r sel hsel h3)] at hq
          simp only [List.mem_cons, not_or] at hq
          rw [checkRowsLoop_cons_correct gd s0 s r sel rest h1 hsel h3]
          have hrest := ih (checkCorrectUpdate r s) q (by simpa using hq.2)
          rw [hrest]
          simp only [checkCorrectUpdate_rowCheckStatuses]
          exact List.getElem?_set_ne (fun he => hq.1 he.symm)
        · by_cases h4 : 3 ≤ s.score.length + 1
          · rw [checkRowsLoop_cons_wrong_halt gd s0 s r sel rest h1 hsel h3 h4]
            rw [runLossSequence_rowCheckStatuses]
            simp [checkWrongUpdate]
          · rw [checkSpec_cons_wrong _ _ _ _ _ (checkSkip_false s0 r sel h1 hsel)
              (checkCorrect_false gd s0 r sel hsel h3) h4] at hq
            rw [checkRowsLoop_cons_wrong_continue gd s0 s r sel rest h1 hsel h3 h4]
            have hrest := ih (checkWrongUpdate r sel s) q (by simpa using hq)
            rw [hrest]
            simp

theorem checkRowsLoop_okRows_spec (gd : GameData) (s0 : GameState) :
    ∀ (rows : List Nat) (s : GameState),
      (∀ q ∈ rows, q < s.rowCheckStatuses.length) →
      ∀ q ∈ (checkSpec (checkSkip s0) (checkCorrect gd s0) s.score.length rows).okRows,
        (checkRowsLoop gd s0 rows s).rowCheckStatuses[q]? = some .revealed := by
  intro rows
  induction rows with
  | nil =>
    intro s _ q hq
    rw [checkSpec_nil] at hq
    exact absurd hq (List.not_mem_nil q)
  | cons r rest ih =>
    intro s hlen q hq
    by_cases h1 : s0.rowCheckStatuses[r]? = some RowCheckStatus.revealed
    · rw [checkSpec_cons_skip _ _ _ _ _ (checkSkip_of_revealed s0 r h1)] at hq
      rw [checkRowsLoop_cons_revealed gd s0 s r rest h1]
      exact ih s (fun q hq2 => hlen q (List.mem_cons_of_mem r hq2)) q hq
    · rcases hsel : s0.selection r with _ | sel
      · rw [checkSpec_cons_skip _ _ _ _ _ (checkSkip_of_noSel s0 r hsel)] at hq
        rw [checkRowsLoop_cons_noSel gd s0 s r rest h1 hsel]
        exact ih s (fun q hq2 => hlen q (List.mem_cons_of_mem r hq2)) q hq
      · by_cases h3 : some sel = rowOutlierIndex gd r
        · rw [checkSpec_cons_ok _ _ _ _ _ (checkSkip_false s0 r sel h1 hsel)
            (checkCorrect_true gd s0 r sel hsel h3)] at hq
          rw [checkRowsLoop_cons_correct gd s0 s r sel rest h1 hsel h3]
          have hlen2 : ∀ q ∈ rest, q < (checkCorrectUpdate r s).rowCheckStatuses.length := by
            intro q hq2
            simpa [checkCorrectUpdate] using hlen q (List.mem_cons_of_mem r hq2)
          rcases List.mem_cons.1 hq with he | hq2
          · subst he
            by_cases hmem : q ∈ (checkSpec (checkSkip s0) (checkCorrect gd s0)
                (checkCorrectUpdate q s).score.length rest).okRows
            · exact ih (checkCorrectUpdate q s) hlen2 q hmem
            · rw [checkRowsLoop_statuses_frame gd s0 rest (checkCorrectUpdate q s) q hmem]
              simp only [checkCorrectUpdate_rowCheckStatuses]
              exact List.getElem?_set_self (hlen q (List.mem_cons_self q rest))
          · exact ih (checkCorrectUpdate r s) hlen2 q (by simpa using hq2)
        · by_cases h4 : 3 ≤ s.score.length + 1
          · rw [checkSpec_cons_halt _ _ _ _ _ (checkSkip_false s0 r sel h1 hsel)
              (checkCorrect_false gd s0 r sel hsel h3) h4] at hq
            exact absurd hq (List.not_mem_nil q)
          · rw [checkSpec_cons_wrong _ _ _ _ _ (checkSkip_false s0 r sel h1 hsel)
              (checkCorrect_false gd s0 r sel hsel h3) h4] at hq
            rw [checkRowsLoop_cons_wrong_continue gd s0 s r sel rest h1 hsel h3 h4]
            have hlen2 : ∀ q ∈ rest, q < (checkWrongUpdate r sel s).rowCheckStatuses.length := by
              intro q hq2
              simpa [checkWrongUpdate] using hlen q (List.mem_cons_of_mem r hq2)
            exact ih (checkWrongUpdate r sel s) hlen2 q (by simpa using hq)

theorem checkRowsLoop_sel_frame (gd : GameData) (s0 : GameState) :
    ∀ (rows : List Nat) (s : GameState) (q : Nat),
      q ∉ (checkSpec (checkSkip s0) (checkCorrect gd s0) s.score.length rows).struckRows →
      (checkRowsLoop gd s0 rows s).selection q = s.selection q ∧
      (checkRowsLoop gd s0 rows s).failedSet q = s.failedSet q := by
  intro rows
  induction rows with
  | nil =>
    intro s q _
    rw [checkRowsLoop_nil]
    exact ⟨rfl, rfl⟩
  | cons r rest ih =>
    intro s q hq
    by_cases h1 : s0.rowCheckStatuses[r]? = some RowCheckStatus.revealed
    · rw [checkSpec_cons_skip _ _ _ _ _ (checkSkip_of_revealed s0 r h1)] at hq
      rw [checkRowsLoop_cons_revealed gd s0 s r rest h1]
      exact ih s q hq
    · rcases hsel : s0.selection r with _ | sel
      · rw [checkSpec_cons_skip _ _ _ _ _ (checkSkip_of_noSel s0 r hsel)] at hq
        rw [checkRowsLoop_cons_noSel gd s0 s r rest h1 hsel]
        exact ih s q hq
      · by_cases h3 : some sel = rowOutlierIndex gd r
        · rw [checkSpec_cons_ok _ _ _ _ _ (checkSkip_false s0 r sel h1 hsel)
            (checkCorrect_true gd s0 r sel hsel h3)] at hq
          rw [checkRowsLoop_cons_correct gd s0 s r sel rest h1 hsel h3]
          exact ih (checkCorrectUpdate r s) q (by simpa using hq)
        · by_cases h4 : 3 ≤ s.score.length + 1
          · rw [checkSpec_cons_halt _ _ _ _ _ (checkSkip_false s0 r sel h1 hsel)
              (checkCorrect_false gd s0 r sel hsel h3) h4] at hq
            simp only [List.mem_singleton] at hq
            rw [checkRowsLoop_cons_wrong_halt gd s0 s r sel rest h1 hsel h3 h4]
            constructor
            · show ((runLossSequence _ _).selections[q]?).getD none = s.selection q
              rw [runLossSequence_selections]
              simp only [checkWrongUpdate]
              unfold GameState.selection
              rw [List.getElem?_set_ne (fun he => hq he.symm)]
            · show ((runLossSequence _ _).failedGuesses[q]?).getD [] = s.failedSet q
              rw [runLossSequence_failedGuesses]
              simp only [checkWrongUpdate]
              unfold GameState.failedSet
              rw [List.getElem?_set_ne (fun he => hq he.symm)]
          · rw [checkSpec_cons_wrong _ _ _ _ _ (checkSkip_false s0 r sel h1 hsel)
              (checkCorrect_false gd s0 r sel hsel h3) h4] at hq
            simp only [List.mem_cons, not_or] at hq
            rw [checkRowsLoop_cons_wrong_continue gd s0 s r sel rest h1 hsel h3 h4]
            have hrest := ih (checkWrongUpdate r sel s) q (by simpa using hq.2)
            rw [hrest.1, hrest.2]
            constructor
            · unfold GameState.selection
              simp only [checkWrongUpdate_selections]
              rw [List.getElem?_set_ne (fun he => hq.1 he.symm)]
            · unfold GameState.failedSet
              simp only [checkWrongUpdate_failedGuesses]
              rw [List.getElem?_set_ne (fun he => hq.1 he.symm)]

theorem checkRowsLoop_struck_spec (gd : GameData) (s0 : GameState) :
    ∀ (rows : List Nat) (s : GameState),
      (∀ q ∈ rows, q < s.failedGuesses.length) →
      ∀ q ∈ (checkSpec (checkSkip s0) (checkCorrect gd s0) s.score.length rows).struckRows,
        (checkRowsLoop gd s0 rows s).selection q = none ∧
        (∀ w, s0.selection q = some w →
          some w ∈ (checkRowsLoop gd s0 rows s).failedSet q) := by
  intro rows
  induction rows with
  | nil =>
    intro s _ q hq
    rw [checkSpec_nil] at hq
    exact absurd hq (List.not_mem_nil q)
  | cons r rest ih =>
    intro s hlen q hq
    by_cases h1 : s0.rowCheckStatuses[r]? = some RowCheckStatus.revealed
    · rw [checkSpec_cons_skip _ _ _ _ _ (checkSkip_of_revealed s0 r h1)] at hq
      rw [checkRowsLoop_cons_revealed gd s0 s r rest h1]
      exact ih s (fun q hq2 => hlen q (List.mem_cons_of_mem r hq2)) q hq
    · rcases hsel : s0.selection r with _ | sel
      · rw [checkSpec_cons_skip _ _ _ _ _ (checkSkip_of_noSel s0 r hsel)] at hq
        rw [checkRowsLoop_cons_noSel gd s0 s r rest h1 hsel]
        exact ih s (fun q hq2 => hlen q (List.mem_cons_of_mem r hq2)) q hq
      · by_cases h3 : some sel = rowOutlierIndex gd r
        · rw [checkSpec_cons_ok _ _ _ _ _ (checkSkip_false s0 r sel h1 hsel)
            (checkCorrect_true gd s0 r sel hsel h3)] at hq
          rw [checkRowsLoop_cons_correct gd s0 s r sel rest h1 hsel h3]
          have hlen2 : ∀ q ∈ rest, q < (checkCorrectUpdate r s).failedGuesses.length := by
            intro q hq2
            simpa [checkCorrectUpdate] using hlen q (List.mem_cons_of_mem r hq2)
          exact ih (checkCorrectUpdate r s) hlen2 q (by simpa using hq)
        · by_cases h4 : 3 ≤ s.score.length + 1
          · rw [checkSpec_cons_halt _ _ _ _ _ (checkSkip_false s0 r sel h1 hsel)
              (checkCorrect_false gd s0 r sel hsel h3) h4] at hq
            simp only [List.mem_singleton] at hq
            subst hq
            rw [checkRowsLoop_cons_wrong_halt gd s0 s q sel rest h1 hsel h3 h4]
            constructor
            · unfold GameState.selection
              rw [runLossSequence_selections]
              simp only [checkWrongUpdate]
              rw [List.getElem?_set]
              by_cases hql : q < s.selections.length <;> simp [hql]
            · intro w hw
              rw [hsel] at hw
              injection hw with hw
              subst hw
              unfold GameState.failedSet
              rw [runLossSequence_failedGuesses]
              simp only [checkWrongUpdate]
              rw [List.getElem?_set_self (hlen q (List.mem_cons_self q rest))]
              exact jsSetAdd_self_mem _ _
          · rw [checkSpec_cons_wrong _ _ _ _ _ (checkSkip_false s0 r sel h1 hsel)
              (checkCorrect_false gd s0 r sel hsel h3) h4] at hq
            rw [checkRowsLoop_cons_wrong_continue gd s0 s r sel rest h1 hsel h3 h4]
            have hlen2 : ∀ q ∈ rest, q < (checkWrongUpdate r sel s).failedGuesses.length := by
              intro q hq2
              simpa [checkWrongUpdate] using hlen q (List.mem_cons_of_mem r hq2)
            rcases List.mem_cons.1 (by simpa using hq) with he | hq2
            · subst he
              by_cases hmem : q ∈ (checkSpec (checkSkip s0) (checkCorrect gd s0)
                  (checkWrongUpdate q sel s).score.length rest).struckRows
              · exact ih (checkWrongUpdate q sel s) hlen2 q hmem
              · have hframe := checkRowsLoop_sel_frame gd s0 rest (checkWrongUpdate q sel s) q hmem
                rw [hframe.1, hframe.2]
                constructor
                · unfold GameState.selection
                  simp only [checkWrongUpdate_selections]
                  rw [List.getElem?_set]
                  by_cases hql : q < s.selections.length <;> simp [hql]
                · intro w hw
                  rw [hsel] at hw
                  injection hw with hw
                  subst hw
                  unfold GameState.failedSet
                  simp only [checkWrongUpdate_failedGuesses]
                  rw [List.getElem?_set_self (hlen q (List.mem_cons_self q rest))]
                  exact jsSetAdd_self_mem _ _
            · exact ih (checkWrongUpdate r sel s) hlen2 q (by simpa using hq2)

/-- A non-halting check pass strikes at most up to the limit: either no
row was struck, or the final strike count is still below 3. -/
theorem checkSpec_not_halted_bound (skip correct : Nat → Bool) :
    ∀ (rows : List Nat) (n : Nat),
      (checkSpec skip correct n rows).halted = false →
      (checkSpec skip correct n rows).struckRows = [] ∨
        n + (checkSpec skip correct n rows).struckRows.length ≤ 2 := by
  intro rows
  induction rows with
  | nil =>
    intro n _
    rw [checkSpec_nil]
    exact Or.inl rfl
  | cons r rest ih =>
    intro n hh
    by_cases h1 : skip r = true
    · rw [checkSpec_cons_skip _ _ _ _ _ h1] at hh ⊢
      exact ih n hh
    · rw [Bool.not_eq_true] at h1
      by_cases h2 : correct r = true
      · rw [checkSpec_cons_ok _ _ _ _ _ h1 h2] at hh ⊢
        exact ih n (by simpa using hh)
      · rw [Bool.not_eq_true] at h2
        by_cases h3 : 3 ≤ n + 1
        · rw [checkSpec_cons_halt _ _ _ _ _ h1 h2 h3] at hh
          simp at hh
        · rw [checkSpec_cons_wrong _ _ _ _ _ h1 h2 h3] at hh ⊢
          rcases ih (n + 1) (by simpa using hh) with hz | hb
          · right
            simp only [hz]
            simp
            omega
          · right
            simp only [List.length_cons]
            omega

/-- The state `runCheckSequence` hands to its row loop: sequence guard
set, phase `checking`, feedback cleared, `hasUsedCheck` set, and every
already-recorded score entry converted to a circle. -/
def convertScoreState (s : GameState) : GameState :=
  { s with
    isAnimating := true
    gamePhase := .checking
    feedbackMessage := none
    hasUsedCheck := true
    score := s.score.map (fun it => { it with shape := .circle }) }

theorem runCheckSequence_eq_loop (gd : GameData) (s : GameState)
    (hA : s.isAnimating = false) :
    runCheckSequence gd s = checkRowsLoop gd s [0, 1, 2, 3] (convertScoreState s) := by
  unfold runCheckSequence
  rw [if_neg (by simp [hA])]
  rfl

/-- Spec-side replay of a `runCheck` invocation from state `s`: the
outcome of the spec's Check protocol on rows 0..3, starting from the
session's current strike count. -/
def runCheckOutcome (gd : GameData) (s : GameState) : CheckOutcome :=
  checkSpec (checkSkip s) (checkCorrect gd s) s.score.length [0, 1, 2, 3]

theorem mem_rows4_lt (q : Nat) (hq : q ∈ ([0, 1, 2, 3] : List Nat)) : q < 4 := by
  simp at hq
  rcases hq with rfl | rfl | rfl | rfl <;> omega

/-- C4.  `runCheck` implements the spec's Check protocol: it iterates
rows 0..3 in order, skipping already-revealed rows and rows without a
selection; a correctly selected row becomes check-revealed with no score
entry of its own; a wrong row contributes one RED entry, gets the wrong
word added to its `failedGuesses` and its pending selection cleared;
rows are struck/revealed exactly as in the spec-side replay
`runCheckOutcome`, which also decides whether the strike limit halted
the iteration into the loss sequence or control returned to the playing
phase. -/
theorem runCheck_matches_checkSpec (gd : GameData) (s : GameState)
    (hA : s.isAnimating = false)
    (hlen4 : s.selections.length = 4 ∧ s.rowStates.length = 4 ∧
      s.rowCheckStatuses.length = 4 ∧ s.failedGuesses.length = 4) :
    (runCheckSequence gd s).score =
      s.score.map (fun it => { it with shape := .circle }) ++
        ((runCheckOutcome gd s).struckRows.map (fun _ => ScoreItem.mk .red .circle)) ∧
    (∀ q ∈ (runCheckOutcome gd s).okRows,
      (runCheckSequence gd s).rowCheckStatuses[q]? = some .revealed) ∧
    (∀ q ∈ (runCheckOutcome gd s).struckRows,
      (runCheckSequence gd s).selection q = none ∧
      ∀ w, s.selection q = some w → some w ∈ (runCheckSequence gd s).failedSet q) ∧
    (∀ q, q ∉ (runCheckOutcome gd s).struckRows →
      (runCheckSequence gd s).selection q = s.selection q ∧
      (runCheckSequence gd s).failedSet q = s.failedSet q) ∧
    (∀ q, q ∉ (runCheckOutcome gd s).okRows →
      (runCheckSequence gd s).rowCheckStatuses[q]? = s.rowCheckStatuses[q]?) ∧
    ((runCheckOutcome gd s).halted = true →
      (runCheckSequence gd s).gameResult = some .lost ∧
      (runCheckSequence gd s).gamePhase = .ended) ∧
    ((runCheckOutcome gd s).halted = false →
      (runCheckSequence gd s).gameResult = s.gameResult ∧
      (runCheckSequence gd s).gamePhase = .playing) := by
  obtain ⟨hl1, hl2, hl3, hl4⟩ := hlen4
  have hn : (convertScoreState s).score.length = s.score.length := by
    simp [convertScoreState]
  refine ⟨?_, ?_, ?_, ?_, ?_, ?_, ?_⟩
  · rw [runCheckSequence_eq_loop gd s hA]
    have h := checkRowsLoop_score_spec gd s [0, 1, 2, 3] (convertScoreState s)
    rw [hn] at h
    exact h
  · rw [runCheckSequence_eq_loop gd s hA]
    have h := checkRowsLoop_okRows_spec gd s [0, 1, 2, 3] (convertScoreState s)
      (fun q hq => by
        have := mem_rows4_lt q hq
        simp only [convertScoreState]
        omega)
    rw [hn] at h
    exact h
  · rw [runCheckSequence_eq_loop gd s hA]
    have h := checkRowsLoop_struck_spec gd s [0, 1, 2, 3] (convertScoreState s)
      (fun q hq => by
        have := mem_rows4_lt q hq
        simp only [convertScoreState]
        omega)
    rw [hn] at h
    exact h
  · rw [runCheckSequence_eq_loop gd s hA]
    intro q hq
    have h := checkRowsLoop_sel_frame gd s [0, 1, 2, 3] (convertScoreState s) q
      (by rw [hn]; exact hq)
    exact h
  · rw [runCheckSequence_eq_loop gd s hA]
    intro q hq
    have h := checkRowsLoop_statuses_frame gd s [0, 1, 2, 3] (convertScoreState s) q
      (by rw [hn]; exact hq)
    exact h
  · rw [runCheckSequence_eq_loop gd s hA]
    intro hh
    have h := (checkRowsLoop_end_spec gd s [0, 1, 2, 3] (convertScoreState s)).1
      (by rw [hn]; exact hh)
    exact h
  · rw [runCheckSequence_eq_loop gd s hA]
    intro hh
    have h := (checkRowsLoop_end_spec gd s [0, 1, 2, 3] (convertScoreState s)).2
      (by rw [hn]; exact hh)
    exact ⟨h.1, h.2.1⟩

/-- Session used by the C4 witness: every row of the fallback puzzle has
its outlier selected, so a Check run reveals all four rows. -/
def c4State : GameState :=
  { initialState with
    selections := [some 3, some 2, some 2, some 2]
    selectionOrder := [0, 1, 2, 3] }

/-- Witness for C4: the score after a Check run on `c4State` matches the
spec-side replay. -/
theorem runCheck_matches_checkSpec_witness :
    (runCheckSequence fallbackPuzzle c4State).score =
      c4State.score.map (fun it => { it with shape := .circle }) ++
        ((runCheckOutcome fallbackPuzzle c4State).struckRows.map
          (fun _ => ScoreItem.mk .red .circle)) :=
  (runCheck_matches_checkSpec fallbackPuzzle c4State rfl (by decide)).1

/-! ### C1: reachable-state invariant -/

/-- Inductive invariant of reachable sessions: the per-row maps keep
their four entries; while no result is set the session is in the playing
phase with no sequence in flight, at most two strikes and no Purple
entry; once a result is set the phase is `ended`, and a won session has
at most two non-Purple entries. -/
def Inv (s : GameState) : Prop :=
  s.selections.length = 4 ∧ s.rowStates.length = 4 ∧
  s.rowCheckStatuses.length = 4 ∧ s.failedGuesses.length = 4 ∧
  (s.gameResult = none →
    s.gamePhase = .playing ∧ s.isAnimating = false ∧ s.score.length ≤ 2 ∧
    ∀ it ∈ s.score, it.color ≠ .purple) ∧
  (∀ g, s.gameResult = some g → s.gamePhase = .ended) ∧
  (s.gameResult = some .won →
    (s.score.filter (fun it => it.color != .purple)).length ≤ 2)

theorem inv_initial : Inv initialState := by
  refine ⟨rfl, rfl, rfl, rfl, fun _ => ⟨rfl, rfl, by decide, by decide⟩, ?_, ?_⟩
  · intro g hg
    cases hg
  · intro hg
    cases hg

theorem inv_select (r w : Nat) (s : GameState) (hInv : Inv s) :
    Inv (handleCardClick r w s) := by
  unfold handleCardClick
  split_ifs with h1 h2 h3 h4 h5
  · exact hInv
  · exact hInv
  · exact hInv
  · exact hInv
  all_goals
    rcases hInv with ⟨l1, l2, l3, l4, hnone, hsome, hwon⟩
  all_goals
    exact ⟨by simpa using l1, l2, l3, l4, hnone, hsome, hwon⟩

theorem inv_standout (gd : GameData) (r : Nat) (s : GameState) (hInv : Inv s) :
    Inv (submitStandoutGuess gd r s) := by
  unfold submitStandoutGuess
  split_ifs with hp hclick hsel
  · exact hInv
  · -- second tap: the actual guess resolution
    rcases hInv with ⟨l1, l2, l3, l4, hnone, hsome, hwon⟩
    have hph : s.gamePhase = .playing := by
      by_contra hne
      exact hp (by simpa using hne)
    have hres : s.gameResult = none := by
      rcases hr : s.gameResult with _ | g
      · rfl
      · have := hsome g hr
        rw [hph] at this
        cases this
    obtain ⟨_, hA, hlen, hcol⟩ := hnone hres
    rcases handleStandoutGuess_outcome gd r s hA with
      ⟨hu, ho, hsc, hres2, hph2, hia2, hfail, hsolv, hsel2, huse, hrcs, hrsl⟩ |
      ⟨hnu, ho, hsc, hfail, hsolv, hsel2, huse, hrsl, hrcsl, hdich⟩ |
      ⟨hno, hsc, hfail, hsolv, hsel2, huse, hrsl, hrcs, hdich⟩
    · -- PURPLE / win
      refine ⟨by rw [hsel2]; exact l1, by rw [hrsl]; exact l2,
        by rw [hrcs]; exact l3, by rw [hfail]; exact l4, ?_, ?_, ?_⟩
      · intro hcontra
        rw [hres2] at hcontra
        cases hcontra
      · intro g _
        exact hph2
      · intro _
        rw [hsc, List.filter_append]
        have hfe : (([ScoreItem.mk .purple
            (if s.hasUsedCheck then .circle else .star)]).filter
            (fun it => it.color != .purple)) = [] := by simp
        rw [hfe]
        simp only [List.append_nil]
        calc (s.score.filter (fun it => it.color != .purple)).length
            ≤ s.score.length := List.length_filter_le _ _
          _ ≤ 2 := hlen
    · -- YELLOW
      by_cases hlim : 3 ≤ s.score.length + 1
      · rw [if_pos hlim] at hdich
        obtain ⟨hres2, hph2⟩ := hdich
        refine ⟨by rw [hsel2]; exact l1, by rw [hrsl]; exact l2,
          by rw [hrcsl]; exact l3, by rw [hfail]; exact l4, ?_, ?_, ?_⟩
        · intro hcontra
          rw [hres2] at hcontra
          cases hcontra
        · intro g _
          exact hph2
        · intro hcontra
          rw [hres2] at hcontra
          cases hcontra
      · rw [if_neg hlim] at hdich
        obtain ⟨hres2, hph2, hia2⟩ := hdich
        refine ⟨by rw [hsel2]; exact l1, by rw [hrsl]; exact l2,
          by rw [hrcsl]; exact l3, by rw [hfail]; exact l4, ?_, ?_, ?_⟩
        · intro _
          refine ⟨by rw [hph2]; exact hph, hia2, ?_, ?_⟩
          · rw [hsc]
            simp only [List.length_append, List.length_singleton]
            omega
          · intro it hit
            rw [hsc] at hit
            rcases List.mem_append.1 hit with hold | hnew
            · exact hcol it hold
            · simp only [List.mem_singleton] at hnew
              rw [hnew]
              simp
        · intro g hg
          rw [hres2, hres] at hg
          cases hg
        · intro hg
          rw [hres2, hres] at hg
          cases hg
    · -- RED
      by_cases hlim : 3 ≤ s.score.length + 1
      · rw [if_pos hlim] at hdich
        obtain ⟨hres2, hph2⟩ := hdich
        refine ⟨by rw [hsel2]; simpa using l1, by rw [hrsl]; exact l2,
          by rw [hrcs]; exact l3, by rw [hfail]; simpa using l4, ?_, ?_, ?_⟩
        · intro hcontra
          rw [hres2] at hcontra
          cases hcontra
        · intro g _
          exact hph2
        · intro hcontra
          rw [hres2] at hcontra
          cases hcontra
      · rw [if_neg hlim] at hdich
        obtain ⟨hres2, hph2, hia2⟩ := hdich
        refine ⟨by rw [hsel2]; simpa using l1, by rw [hrsl]; exact l2,
          by rw [hrcs]; exact l3, by rw [hfail]; simpa using l4, ?_, ?_, ?_⟩
        · intro _
          refine ⟨by rw [hph2]; exact hph, hia2, ?_, ?_⟩
          · rw [hsc]
            simp only [List.length_append, List.length_singleton]
            omega
          · intro it hit
            rw [hsc] at hit
            rcases List.mem_append.1 hit with hold | hnew
            · exact hcol it hold
            · simp only [List.mem_singleton] at hnew
              rw [hnew]
              simp
        · intro g hg
          rw [hres2, hres] at hg
          cases hg
        · intro hg
          rw [hres2, hres] at hg
          cases hg
  · -- first tap: select the card in the oddest puzzle row
    rcases hInv with ⟨l1, l2, l3, l4, hnone, hsome, hwon⟩
    exact ⟨l1, l2, l3, l4, hnone, hsome, hwon⟩
  · exact hInv

theorem inv_check (gd : GameData) (s : GameState) (hInv : Inv s)
    (hph : s.gamePhase = .playing) : Inv (runCheckSequence gd s) := by
  rcases hInv with ⟨l1, l2, l3, l4, hnone, hsome, hwon⟩
  have hres : s.gameResult = none := by
    rcases hr : s.gameResult with _ | g
    · rfl
    · have := hsome g hr
      rw [hph] at this
      cases this
  obtain ⟨_, hA, hlen, hcol⟩ := hnone hres
  have hlens := checkRowsLoop_lengths gd s [0, 1, 2, 3] (convertScoreState s)
  have hends := checkRowsLoop_end_spec gd s [0, 1, 2, 3] (convertScoreState s)
  have hscore := checkRowsLoop_score_spec gd s [0, 1, 2, 3] (convertScoreState s)
  rw [runCheckSequence_eq_loop gd s hA]
  refine ⟨by rw [hlens.1]; exact l1, by rw [hlens.2.1]; exact l2,
    by rw [hlens.2.2.1]; exact l3, by rw [hlens.2.2.2]; exact l4, ?_, ?_, ?_⟩
  · intro hres2
    by_cases hh : (checkSpec (checkSkip s) (checkCorrect gd s)
        (convertScoreState s).score.length [0, 1, 2, 3]).halted = true
    · obtain ⟨hr2, _⟩ := hends.1 hh
      rw [hr2] at hres2
      cases hres2
    · obtain ⟨_, hph2, hia2⟩ := hends.2 (by simpa using hh)
      refine ⟨hph2, hia2, ?_, ?_⟩
      · rw [hscore]
        have hb := checkSpec_not_halted_bound (checkSkip s) (checkCorrect gd s)
          [0, 1, 2, 3] (convertScoreState s).score.length (by simpa using hh)
        have hcl : (convertScoreState s).score.length = s.score.length := by
          simp [convertScoreState]
        rcases hb with hz | hb
        · rw [hz]
          simp [convertScoreState]
          omega
        · rw [hcl] at hb
          simp only [List.length_append, List.length_map]
          simp only [convertScoreState]
          simp only [List.length_map]
          omega
      · intro it hit
        rw [hscore] at hit
        rcases List.mem_append.1 hit with hold | hnew
        · simp only [convertScoreState, List.mem_map] at hold
          obtain ⟨a, ha, hae⟩ := hold
          rw [← hae]
          exact hcol a ha
        · simp only [List.mem_map] at hnew
          obtain ⟨a, _, hae⟩ := hnew
          rw [← hae]
          simp
  · intro g hg
    by_cases hh : (checkSpec (checkSkip s) (checkCorrect gd s)
        (convertScoreState s).score.length [0, 1, 2, 3]).halted = true
    · exact (hends.1 hh).2
    · obtain ⟨hr2, _, _⟩ := hends.2 (by simpa using hh)
      rw [hr2] at hg
      simp only [convertScoreState] at hg
      rw [hres] at hg
      cases hg
  · intro hg
    by_cases hh : (checkSpec (checkSkip s) (checkCorrect gd s)
        (convertScoreState s).score.length [0, 1, 2, 3]).halted = true
    · obtain ⟨hr2, _⟩ := hends.1 hh
      rw [hr2] at hg
      cases hg
    · obtain ⟨hr2, _, _⟩ := hends.2 (by simpa using hh)
      rw [hr2] at hg
      simp only [convertScoreState] at hg
      rw [hres] at hg
      cases hg

theorem reachable_inv (gd : GameData) (s : GameState) (h : Reachable gd s) : Inv s := by
  induction h with
  | refl => exact inv_initial
  | tail hsteps hstep ih =>
    cases hstep with
    | select r w hs => exact inv_select r w _ ih
    | check hs hsel hph => exact inv_check gd _ ih hph
    | standout r hs => exact inv_standout gd r _ ih
    | restart hs => exact inv_initial

/-- C1.  In every reachable session state, the score holds at most three
entries while no result is set, and as soon as three non-Purple (Red or
Yellow) entries have been recorded — through any mix of `runCheck` and
`submitStandoutGuess` — the session has already resolved to `Lost`:
no further mutation is accepted in between. -/
theorem score_bound_and_strike_loss (gd : GameData) (s : GameState)
    (h : Reachable gd s) :
    (s.gameResult = none → s.score.length ≤ 3) ∧
    (3 ≤ (s.score.filter (fun it => it.color != .purple)).length →
      s.gameResult = some .lost) := by
  have hInv := reachable_inv gd s h
  rcases hInv with ⟨_, _, _, _, hnone, hsome, hwon⟩
  constructor
  · intro hres
    have := (hnone hres).2.2.1
    omega
  · intro h3
    rcases hr : s.gameResult with _ | g
    · have hlen := (hnone hr).2.2.1
      have hfl : (s.score.filter (fun it => it.color != .purple)).length ≤
          s.score.length := List.length_filter_le _ _
      omega
    · cases g
      · have := hwon hr
        omega
      · rfl

/-- Witness for C1 at a concrete reachable state (one selection made). -/
theorem score_bound_and_strike_loss_witness :
    ((handleCardClick 0 1 initialState).gameResult = none →
      (handleCardClick 0 1 initialState).score.length ≤ 3) ∧
    (3 ≤ ((handleCardClick 0 1 initialState).score.filter
        (fun it => it.color != .purple)).length →
      (handleCardClick 0 1 initialState).gameResult = some .lost) :=
  score_bound_and_strike_loss fallbackPuzzle (handleCardClick 0 1 initialState)
    (Relation.ReflTransGen.tail Relation.ReflTransGen.refl
      (Step.select 0 1 initialState))

/-! ### Puzzle Randomizer (part_000): Fisher-Yates shuffle -/

/-- The body of one Fisher-Yates iteration: the destructuring swap
`[a[i], a[j]] = [a[j], a[i]]` (out-of-range indices never occur in the
source; they leave the list unchanged here). -/
def listSwap {α : Type} (l : List α) (i j : Nat) : List α :=
  match l[i]?, l[j]? with
  | some a, some b => (l.set i b).set j a
  | _, _ => l

/-- The loop of `shuffleArray`: `i` runs from `length - 1` down to `1`,
and `js` supplies the value `Math.floor(Math.random() * (i + 1))` drawn
in each iteration. -/
def fyLoop {α : Type} (l : List α) : Nat → List Nat → List α
  | 0, _ => l
  | _ + 1, [] => l
  | i + 1, j :: js => fyLoop (listSwap l (i + 1) j) i js

/-- `shuffleArray` from part_000 (Fisher-Yates), with the random draws
passed explicitly. -/
def shuffleArray {α : Type} (l : List α) (js : List Nat) : List α :=
  fyLoop l (l.length - 1) js

theorem get_cons_set_perm {α : Type} :
    ∀ (t : List α) (k : Nat) (b x : α), t[k]? = some b →
      (b :: t.set k x).Perm (x :: t) := by
  intro t
  induction t with
  | nil =>
    intro k b x h
    simp at h
  | cons y s ih =>
    intro k b x h
    cases k with
    | zero =>
      simp only [List.getElem?_cons_zero, Option.some_inj] at h
      subst h
      exact List.Perm.swap x y s
    | succ k =>
      simp only [List.getElem?_cons_succ] at h
      exact ((List.Perm.swap y b (s.set k x)).trans ((ih k b x h).cons y)).trans
        (List.Perm.swap x y s)

theorem set_set_perm {α : Type} :
    ∀ (l : List α) (i j : Nat) (a b : α), l[i]? = some a → l[j]? = some b →
      ((l.set i b).set j a).Perm l := by
  intro l
  induction l with
  | nil =>
    intro i j a b hi _
    simp at hi
  | cons x t ih =>
    intro i j a b hi hj
    cases i with
    | zero =>
      simp only [List.getElem?_cons_zero, Option.some_inj] at hi
      subst hi
      cases j with
      | zero =>
        simp only [List.getElem?_cons_zero, Option.some_inj] at hj
        subst hj
        exact List.Perm.refl _
      | succ j =>
        simp only [List.getElem?_cons_succ] at hj
        exact get_cons_set_perm t j b x hj
    | succ i =>
      simp only [List.getElem?_cons_succ] at hi
      cases j with
      | zero =>
        simp only [List.getElem?_cons_zero, Option.some_inj] at hj
        subst hj
        exact get_cons_set_perm t i a x hi
      | succ j =>
        simp only [List.getElem?_cons_succ] at hj
        exact (ih i j a b hi hj).cons x

theorem listSwap_perm {α : Type} (l : List α) (i j : Nat) :
    (listSwap l i j).Perm l := by
  unfold listSwap
  split
  · next a b hi hj => exact set_set_perm l i j a b hi hj
  · exact List.Perm.refl l

theorem fyLoop_perm {α : Type} :
    ∀ (i : Nat) (js : List Nat) (l : List α), (fyLoop l i js).Perm l := by
  intro i
  induction i with
  | zero =>
    intro js l
    exact List.Perm.refl l
  | succ i ih =>
    intro js l
    cases js with
    | nil => exact List.Perm.refl l
    | cons j js => exact (ih js (listSwap l (i + 1) j)).trans (listSwap_perm l (i + 1) j)

theorem shuffleArray_perm {α : Type} (l : List α) (js : List Nat) :
    (shuffleArray l js).Perm l :=
  fyLoop_perm (l.length - 1) js l

theorem jsMapIdxFrom_length {α β : Type} (f : Nat → α → β) :
    ∀ (l : List α) (i : Nat), (jsMapIdxFrom f i l).length = l.length := by
  intro l
  induction l with
  | nil => intro i; rfl
  | cons x xs ih =>
    intro i
    simp only [jsMapIdxFrom, List.length_cons, ih]

theorem jsMapIdxFrom_getElem? {α β : Type} (f : Nat → α → β) :
    ∀ (l : List α) (i k : Nat),
      (jsMapIdxFrom f i l)[k]? = (l[k]?).map (f (i + k)) := by
  intro l
  induction l with
  | nil => intro i k; simp [jsMapIdxFrom]
  | cons x xs ih =>
    intro i k
    cases k with
    | zero => simp [jsMapIdxFrom]
    | succ k =>
      simp only [jsMapIdxFrom, List.getElem?_cons_succ, ih (i + 1) k]
      have : i + 1 + k = i + (k + 1) := by omega
      rw [this]

theorem jsMapIdx_getElem? {α β : Type} (f : Nat → α → β) (l : List α) (k : Nat) :
    (jsMapIdx f l)[k]? = (l[k]?).map (f k) := by
  unfold jsMapIdx
  rw [jsMapIdxFrom_getElem?]
  simp

theorem jsMapIdx_length {α β : Type} (f : Nat → α → β) (l : List α) :
    (jsMapIdx f l).length = l.length :=
  jsMapIdxFrom_length f l 0

theorem jsMapIdxFrom_map_fixed {α β γ : Type} (f : Nat → α → β) (g : β → γ)
    (h : α → γ) (hfix : ∀ i x, g (f i x) = h x) :
    ∀ (l : List α) (i : Nat), (jsMapIdxFrom f i l).map g = l.map h := by
  intro l
  induction l with
  | nil => intro i; rfl
  | cons x xs ih =>
    intro i
    simp only [jsMapIdxFrom, List.map_cons, ih, hfix]

theorem jsMapIdx_map_fixed {α β γ : Type} (f : Nat → α → β) (g : β → γ)
    (h : α → γ) (hfix : ∀ i x, g (f i x) = h x) (l : List α) :
    (jsMapIdx f l).map g = l.map h :=
  jsMapIdxFrom_map_fixed f g h hfix l 0

theorem length_four_destruct {α : Type} (l : List α) (h : l.length = 4) :
    ∃ a b c d, l = [a, b, c, d] := by
  rcases l with _ | ⟨a, _ | ⟨b, _ | ⟨c, _ | ⟨d, _ | ⟨e, t⟩⟩⟩⟩⟩ <;> simp at h
  exact ⟨a, b, c, d, rfl⟩

/-- `createShuffledWords` from part_000: tag each word with whether it is
the outlier, shuffle, locate the outlier again with `findIndex`
(modelled by `List.findIdx`; the not-found case never occurs in the
claims proved below), and mint WordItems with random id suffixes drawn
from the oracle `sfx`. -/
def createShuffledWords (texts : List String) (rowIndex outlierIdx : Nat)
    (js : List Nat) (sfx : Nat → String) : List WordItem × Nat :=
  let wordsWithMeta := jsMapIdx (fun idx text => (text, idx == outlierIdx)) texts
  let shuffled := shuffleArray wordsWithMeta js
  let newOutlierIndex := shuffled.findIdx (fun w => w.2)
  let words := jsMapIdx
    (fun idx w =>
      WordItem.mk w.1
        ("row-" ++ toString rowIndex ++ "-word-" ++ toString idx ++ "-" ++ sfx idx))
    shuffled
  (words, newOutlierIndex)

theorem createShuffledWords_spec (texts : List String) (h4 : texts.length = 4)
    (rowIndex : Nat) (js : List Nat) (sfx : Nat → String) :
    (createShuffledWords texts rowIndex 3 js sfx).1.length = 4 ∧
    (createShuffledWords texts rowIndex 3 js sfx).2 < 4 ∧
    (((createShuffledWords texts rowIndex 3 js sfx).1[
        (createShuffledWords texts rowIndex 3 js sfx).2]?).map (·.text)) = texts[3]? ∧
    ((createShuffledWords texts rowIndex 3 js sfx).1.map (·.text)).Perm texts := by
  obtain ⟨t0, t1, t2, t3, rfl⟩ := length_four_destruct texts h4
  set shuffled := shuffleArray
    (jsMapIdx (fun idx text => (text, idx == 3)) [t0, t1, t2, t3]) js with hsh
  have hperm : shuffled.Perm [(t0, false), (t1, false), (t2, false), (t3, true)] :=
    shuffleArray_perm _ js
  have hlen : shuffled.length = 4 := by
    rw [hperm.length_eq]
    rfl
  have hexists : (t3, true) ∈ shuffled := hperm.mem_iff.2 (by simp)
  have hfind : shuffled.findIdx (fun w => w.2) < shuffled.length :=
    List.findIdx_lt_length_of_exists ⟨(t3, true), hexists, rfl⟩
  have hsat : (shuffled[shuffled.findIdx (fun w => w.2)]).2 = true :=
    List.findIdx_getElem
  have hmem : shuffled[shuffled.findIdx (fun w => w.2)] ∈ shuffled :=
    List.getElem_mem _
  have heq3 : shuffled[shuffled.findIdx (fun w => w.2)] = (t3, true) := by
    have hmem2 := hperm.mem_iff.1 hmem
    simp only [List.mem_cons, List.mem_singleton, List.not_mem_nil, or_false] at hmem2
    rcases hmem2 with he | he | he | he <;>
      first
        | exact he
        | (exfalso; rw [he] at hsat; simp at hsat)
  have hc : createShuffledWords [t0, t1, t2, t3] rowIndex 3 js sfx =
      (jsMapIdx
        (fun idx w =>
          WordItem.mk w.1
            ("row-" ++ toString rowIndex ++ "-word-" ++ toString idx ++ "-" ++ sfx idx))
        shuffled,
        shuffled.findIdx (fun w => w.2)) := rfl
  refine ⟨?_, ?_, ?_, ?_⟩ <;> rw [hc] <;> dsimp only []
  · rw [jsMapIdx_length]
    exact hlen
  · omega
  · rw [jsMapIdx_getElem?, List.getElem?_eq_getElem hfind]
    simp [heq3]
  · rw [jsMapIdx_map_fixed
      (fun idx (w : String × Bool) =>
        WordItem.mk w.1
          ("row-" ++ toString rowIndex ++ "-word-" ++ toString idx ++ "-" ++ sfx idx))
      (fun x => x.text) (fun w => w.1) (fun _ _ => rfl)]
    have hm := hperm.map (fun (w : String × Bool) => w.1)
    simpa using hm

/-- One entry of `rawRows` in `fetchPuzzlesFromSheet` (category name,
its four words, the ultimate flag; block 4 carries the flag). -/
structure RawRow where
  category : String
  words : List String
  isUltimate : Bool
deriving DecidableEq, Repr

/-- The row-order shuffle of `fetchPuzzlesFromSheet`:
`shuffleArray([0, 1, 2, 3])`. -/
def shuffledRowOrder (rowJs : List Nat) : List Nat :=
  shuffleArray [0, 1, 2, 3] rowJs

/-- One output row of the puzzle build (the arrow body of
`shuffledRowIndices.map` in part_000 lines 220-231): words shuffled by
`createShuffledWords` with the outlier always at source index 3. -/
def buildRow (col : Nat) (rawRows : List RawRow) (wordJs : Nat → List Nat)
    (sfx : Nat → Nat → String) (newIdx originalIdx : Nat) : GameRow :=
  let raw := (rawRows[originalIdx]?).getD ⟨"", [], false⟩
  let res := createShuffledWords raw.words newIdx 3 (wordJs newIdx) (sfx newIdx)
  { id := "puzzle-" ++ toString col ++ "-row-" ++ toString newIdx
    category := raw.category
    words := res.1
    outlierIndex := res.2
    explanation :=
      ((raw.words[3]?).getD "") ++ " doesn't belong with " ++
        raw.category.toLower ++ "." }

/-- The per-column `GameData` build of `fetchPuzzlesFromSheet` (part_000
lines 208-238): shuffle the four category blocks (block 4 is the
ultimate), record where block 4 lands as `ultimateOutlierRowIndex`, and
build every row with its own word shuffle. -/
def buildGameData (col : Nat)
    (category1Name category2Name category3Name category4Name metaCategory : String)
    (category1Words category2Words category3Words category4Words : List String)
    (rowJs : List Nat) (wordJs : Nat → List Nat) (sfx : Nat → Nat → String) : GameData :=
  let rawRows : List RawRow :=
    [⟨category1Name, category1Words, false⟩, ⟨category2Name, category2Words, false⟩,
      ⟨category3Name, category3Words, false⟩, ⟨category4Name, category4Words, true⟩]
  let shuffledRowIndices := shuffledRowOrder rowJs
  let newUltimateRowIndex := shuffledRowIndices.findIdx (fun i => i == 3)
  let rows := jsMapIdx (buildRow col rawRows wordJs sfx) shuffledRowIndices
  { rows := rows
    metaCategory := metaCategory
    ultimateOutlierRowIndex := newUltimateRowIndex
    ultimateExplanation :=
      ((category1Words[3]?).getD "") ++ ", " ++ ((category2Words[3]?).getD "") ++
        ", and " ++ ((category3Words[3]?).getD "") ++ " are all " ++
        metaCategory.toLower ++ ". " ++ ((category4Words[3]?).getD "") ++
        " is the Ultimate Oddest1Out." }

/-- One iteration of the per-column loop of `fetchPuzzlesFromSheet`
(part_000 lines 176-241): read the cells of column `col`, silently skip
(`continue`) the column when the date cell is empty or does not parse
(date parsing of the JS `Date` API is abstracted by the `parseDate`
oracle), or when the first category-1 word, the category-1 name, or the
meta-category cell is empty; otherwise build the puzzle.  There is no
error path: the result is `some puzzle` or a silent `none`. -/
def processColumn (parseDate : String → Option Unit) (cell : Nat → String)
    (rowJs : List Nat) (wordJs : Nat → List Nat) (sfx : Nat → Nat → String)
    (col : Nat) : Option GameData :=
  let dateStr := cell 0
  if dateStr = "" then none
  else
    match parseDate dateStr with
    | none => none
    | some _ =>
      let category1Words := [cell 1, cell 2, cell 3, cell 4]
      let category2Words := [cell 5, cell 6, cell 7, cell 8]
      let category3Words := [cell 9, cell 10, cell 11, cell 12]
      let category4Words := [cell 13, cell 14, cell 15, cell 16]
      let category1Name := cell 17
      let category2Name := cell 18
      let category3Name := cell 19
      let category4Name := cell 20
      let metaCategory := cell 21
      if (category1Words[0]?).getD "" = "" ∨ category1Name = "" ∨ metaCategory = ""
      then none
      else
        some (buildGameData col category1Name category2Name category3Name
          category4Name metaCategory category1Words category2Words category3Words
          category4Words rowJs wordJs sfx)

/-! ### C8: the Randomizer preserves roles and word multisets -/

/-- C8.  For any raw input of four 4-word category blocks (outlier at
source index 3, block 4 the designated ultimate) and any random draws,
the built `GameData` has four rows; row `k` is built from the input
block `shuffledRowOrder rowJs` assigns to it, carrying that block's
category name, an `outlierIndex` within 0..3 that points at a word whose
text is the block's source-index-3 word, and a word-text multiset equal
to the block's; and there is exactly one ultimate row index, in 0..3,
namely the position where block 4 (the unique ultimate block) landed. -/
theorem buildGameData_spec (col : Nat) (n1 n2 n3 n4 meta : String)
    (w1 w2 w3 w4 : List String) (rowJs : List Nat) (wordJs : Nat → List Nat)
    (sfx : Nat → Nat → String)
    (h1 : w1.length = 4) (h2 : w2.length = 4) (h3 : w3.length = 4)
    (h4 : w4.length = 4) :
    (buildGameData col n1 n2 n3 n4 meta w1 w2 w3 w4 rowJs wordJs sfx).rows.length = 4 ∧
    (∀ k, k < 4 → ∃ oi row,
      (shuffledRowOrder rowJs)[k]? = some oi ∧ oi < 4 ∧
      (buildGameData col n1 n2 n3 n4 meta w1 w2 w3 w4 rowJs wordJs sfx).rows[k]? =
        some row ∧
      row.category = (([n1, n2, n3, n4][oi]?).getD "") ∧
      row.outlierIndex < 4 ∧
      ((row.words[row.outlierIndex]?).map (·.text)) =
        (([w1, w2, w3, w4][oi]?).getD [])[3]? ∧
      (row.words.map (·.text)).Perm (([w1, w2, w3, w4][oi]?).getD [])) ∧
    (buildGameData col n1 n2 n3 n4 meta w1 w2 w3 w4 rowJs wordJs sfx).ultimateOutlierRowIndex < 4 ∧
    (shuffledRowOrder rowJs)[
      (buildGameData col n1 n2 n3 n4 meta w1 w2 w3 w4 rowJs wordJs sfx).ultimateOutlierRowIndex]? =
      some 3 ∧
    (shuffledRowOrder rowJs).count 3 = 1 := by
  have hperm : (shuffledRowOrder rowJs).Perm [0, 1, 2, 3] := shuffleArray_perm _ _
  have hlen : (shuffledRowOrder rowJs).length = 4 := by
    rw [hperm.length_eq]
    rfl
  have hrows : (buildGameData col n1 n2 n3 n4 meta w1 w2 w3 w4 rowJs wordJs sfx).rows =
      jsMapIdx
        (buildRow col
          [⟨n1, w1, false⟩, ⟨n2, w2, false⟩, ⟨n3, w3, false⟩, ⟨n4, w4, true⟩]
          wordJs sfx)
        (shuffledRowOrder rowJs) := rfl
  have hultdef : (buildGameData col n1 n2 n3 n4 meta w1 w2 w3 w4 rowJs wordJs sfx).ultimateOutlierRowIndex =
      (shuffledRowOrder rowJs).findIdx (fun i => i == 3) := rfl
  have hmain : ∀ k oi, oi < 4 →
      (buildRow col
        [⟨n1, w1, false⟩, ⟨n2, w2, false⟩, ⟨n3, w3, false⟩, ⟨n4, w4, true⟩]
        wordJs sfx k oi).category = (([n1, n2, n3, n4][oi]?).getD "") ∧
      (buildRow col
        [⟨n1, w1, false⟩, ⟨n2, w2, false⟩, ⟨n3, w3, false⟩, ⟨n4, w4, true⟩]
        wordJs sfx k oi).outlierIndex < 4 ∧
      (((buildRow col
        [⟨n1, w1, false⟩, ⟨n2, w2, false⟩, ⟨n3, w3, false⟩, ⟨n4, w4, true⟩]
        wordJs sfx k oi).words[
          (buildRow col
            [⟨n1, w1, false⟩, ⟨n2, w2, false⟩, ⟨n3, w3, false⟩, ⟨n4, w4, true⟩]
            wordJs sfx k oi).outlierIndex]?).map (·.text)) =
        (([w1, w2, w3, w4][oi]?).getD [])[3]? ∧
      ((buildRow col
        [⟨n1, w1, false⟩, ⟨n2, w2, false⟩, ⟨n3, w3, false⟩, ⟨n4, w4, true⟩]
        wordJs sfx k oi).words.map (·.text)).Perm (([w1, w2, w3, w4][oi]?).getD []) := by
    intro k oi hoi
    interval_cases oi
    · have hs := createShuffledWords_spec w1 h1 k (wordJs k) (sfx k)
      exact ⟨rfl, hs.2.1, hs.2.2.1, hs.2.2.2⟩
    · have hs := createShuffledWords_spec w2 h2 k (wordJs k) (sfx k)
      exact ⟨rfl, hs.2.1, hs.2.2.1, hs.2.2.2⟩
    · have hs := createShuffledWords_spec w3 h3 k (wordJs k) (sfx k)
      exact ⟨rfl, hs.2.1, hs.2.2.1, hs.2.2.2⟩
    · have hs := createShuffledWords_spec w4 h4 k (wordJs k) (sfx k)
      exact ⟨rfl, hs.2.1, hs.2.2.1, hs.2.2.2⟩
  refine ⟨?_, ?_, ?_, ?_, ?_⟩
  · rw [hrows, jsMapIdx_length, hlen]
  · intro k hk
    have hk2 : k < (shuffledRowOrder rowJs).length := by omega
    have hoiq : (shuffledRowOrder rowJs)[k]? = some ((shuffledRowOrder rowJs)[k]) :=
      List.getElem?_eq_getElem hk2
    have hoimem : (shuffledRowOrder rowJs)[k] ∈ shuffledRowOrder rowJs :=
      List.getElem_mem _
    have hoilt : (shuffledRowOrder rowJs)[k] < 4 :=
      mem_rows4_lt _ (hperm.mem_iff.1 hoimem)
    obtain ⟨hc, ho, hw, hp⟩ := hmain k ((shuffledRowOrder rowJs)[k]) hoilt
    refine ⟨(shuffledRowOrder rowJs)[k], _, hoiq, hoilt, ?_, hc, ho, hw, hp⟩
    rw [hrows, jsMapIdx_getElem?, hoiq]
    rfl
  · rw [hultdef]
    have hex3 : 3 ∈ shuffledRowOrder rowJs := hperm.mem_iff.2 (by simp)
    have hfl : (shuffledRowOrder rowJs).findIdx (fun i => i == 3) <
        (shuffledRowOrder rowJs).length :=
      List.findIdx_lt_length_of_exists ⟨3, hex3, by decide⟩
    omega
  · rw [hultdef]
    have hex3 : 3 ∈ shuffledRowOrder rowJs := hperm.mem_iff.2 (by simp)
    have hfl : (shuffledRowOrder rowJs).findIdx (fun i => i == 3) <
        (shuffledRowOrder rowJs).length :=
      List.findIdx_lt_length_of_exists ⟨3, hex3, by decide⟩
    have hval : (shuffledRowOrder rowJs)[
        (shuffledRowOrder rowJs).findIdx (fun i => i == 3)] = 3 := by
      have := List.findIdx_getElem (w := hfl)
      simpa using this
    rw [List.getElem?_eq_getElem hfl, hval]
  · rw [hperm.count_eq]
    rfl

/-- Witness for C8 at a concrete raw input with concrete random draws. -/
theorem buildGameData_spec_witness :
    (shuffledRowOrder [2, 1, 1])[
      (buildGameData 1 "A" "B" "C" "D" "M" ["a1", "a2", "a3", "a4"]
        ["b1", "b2", "b3", "b4"] ["c1", "c2", "c3", "c4"] ["d1", "d2", "d3", "d4"]
        [2, 1, 1] (fun _ => [1, 0, 2]) (fun _ _ => "s")).ultimateOutlierRowIndex]? =
      some 3 :=
  (buildGameData_spec 1 "A" "B" "C" "D" "M" ["a1", "a2", "a3", "a4"]
    ["b1", "b2", "b3", "b4"] ["c1", "c2", "c3", "c4"] ["d1", "d2", "d3", "d4"]
    [2, 1, 1] (fun _ => [1, 0, 2]) (fun _ _ => "s")
    rfl rfl rfl rfl).2.2.2.1

/-! ### C7: there is no MalformedPuzzleInput error -/

/-- Date-parse oracle for the C7 artifacts: any non-empty date cell
parses (standing in for the JS `Date` parsing of part_000). -/
def c7ParseDate (s : String) : Option Unit :=
  if s = "" then none else some ()

/-- Raw sheet column whose category-2 block is completely empty (fewer
than 4 words in the sense of the claimed shape contract), but whose
date, first category-1 word, category-1 name and meta-category cells
are all present. -/
def c7MalformedCells (n : Nat) : String :=
  ((["1/2/2024",
      "Mars", "Venus", "Jupiter", "Apollo",
      "", "", "", "",
      "Poker", "Blackjack", "Solitaire", "Bridge",
      "Aries", "Leo", "Mercury", "Scorpio",
      "Planets", "Greek Gods", "Card Games", "Zodiac Signs",
      "NASA Space Programs"] : List String)[n]?).getD ""

/-- Raw sheet column with a valid date but an empty category-1 name. -/
def c7NoNameCells (n : Nat) : String :=
  if n = 17 then "" else c7MalformedCells n

/-- Counterexample to C7 as stated: the Randomizer has no
`MalformedPuzzleInput` failure path.  A column whose category-2 block
has no words at all is *silently accepted* — `processColumn` produces a
puzzle containing empty-text words — and a column lacking its
category-1 name is *silently omitted* (`none`); neither raises any
error. -/
theorem no_malformed_error_counterexample :
    (processColumn c7ParseDate c7MalformedCells [0, 0, 0] (fun _ => [0, 0, 0])
      (fun _ _ => "x") 1).isSome = true ∧
    ((processColumn c7ParseDate c7MalformedCells [0, 0, 0] (fun _ => [0, 0, 0])
      (fun _ _ => "x") 1).map
        (fun gd => gd.rows.any (fun row => row.words.any (fun w => w.text == "")))).getD
      false = true ∧
    processColumn c7ParseDate c7NoNameCells [0, 0, 0] (fun _ => [0, 0, 0])
      (fun _ _ => "x") 1 = none := by
  refine ⟨?_, ?_, ?_⟩ <;> decide

/-- C7 (amended).  The per-column processing of `fetchPuzzlesFromSheet`
never fails with an error: a column is silently skipped (no Puzzle, no
error, no fallback substitution) exactly when its date cell is empty or
unparseable, or its first category-1 word, category-1 name or
meta-category cell is empty; any other column produces a Puzzle, even
when its category blocks are malformed. -/
theorem processColumn_silent (parseDate : String → Option Unit) (cell : Nat → String)
    (rowJs : List Nat) (wordJs : Nat → List Nat) (sfx : Nat → Nat → String)
    (col : Nat) :
    ((cell 0 = "" ∨ parseDate (cell 0) = none ∨ cell 1 = "" ∨ cell 17 = "" ∨
        cell 21 = "") →
      processColumn parseDate cell rowJs wordJs sfx col = none) ∧
    (cell 0 ≠ "" → (parseDate (cell 0)).isSome = true → cell 1 ≠ "" →
      cell 17 ≠ "" → cell 21 ≠ "" →
      (processColumn parseDate cell rowJs wordJs sfx col).isSome = true) := by
  constructor
  · intro h
    unfold processColumn
    by_cases h0 : cell 0 = ""
    · rw [if_pos h0]
    · rw [if_neg h0]
      rcases hd : parseDate (cell 0) with _ | u
      · rfl
      · have hrest : cell 1 = "" ∨ cell 17 = "" ∨ cell 21 = "" := by
          rcases h with h | h | h
          · exact absurd h h0
          · rw [hd] at h
            cases h
          · exact h
        dsimp only []
        rw [if_pos (by simpa using hrest)]
  · intro h0 hd h1 h17 h21
    unfold processColumn
    rw [if_neg h0]
    rcases hdd : parseDate (cell 0) with _ | u
    · rw [hdd] at hd
      cases hd
    · dsimp only []
      rw [if_neg (by simp [h1, h17, h21])]
      rfl

/-- Witness for the amended C7: the no-name column is silently skipped. -/
theorem processColumn_silent_witness :
    processColumn c7ParseDate c7NoNameCells [0, 0, 0] (fun _ => [0, 0, 0])
      (fun _ _ => "y") 1 = none :=
  (processColumn_silent c7ParseDate c7NoNameCells [0, 0, 0] (fun _ => [0, 0, 0])
    (fun _ _ => "y") 1).1 (Or.inr (Or.inr (Or.inr (Or.inl rfl))))

end Oddest
